import Mathlib

/-!
# WiFiSetup: connection supervisor and captive portal

A shallow embedding of `src/WiFiSetup.cpp`.  The radio driver, the clock, the
DNS responder, the HTTP server library and `std::sort` are external to the
repository; they are represented by a `Platform` record of operations on an
abstract environment, and every call the program makes to them is appended to
a trace.  The members of the C++ class are the fields of `WiFiSetup`.
-/

namespace WiFiSetup

/-! ## Constants of the driver API -/

/-- Value of `WL_CONNECTED` in `wl_status_t`. -/
def WL_CONNECTED : Nat := 3

/-- Value of `WL_DISCONNECTED` in `wl_status_t`. -/
def WL_DISCONNECTED : Nat := 6

/-- Value of `ENC_TYPE_NONE` in the driver's encryption enumeration. -/
def ENC_TYPE_NONE : Nat := 7

/-- Radio modes of the driver. -/
inductive WiFiMode
  | WIFI_OFF
  | WIFI_STA
  | WIFI_AP
  | WIFI_AP_STA
  deriving DecidableEq, Repr

/-- HTTP methods distinguished by the server library. -/
inductive HTTPMethod
  | HTTP_ANY
  | HTTP_GET
  | HTTP_POST
  | HTTP_OTHER
  deriving DecidableEq, Repr

/-- The three member functions bound to the HTTP server in `startConfigPortal`. -/
inductive Handler
  | handleRoot
  | handleWifiSave
  | handleNotFound
  deriving DecidableEq, Repr

/-- One HTTP request as the server library presents it to a handler. -/
structure Request where
  uri : String
  method : HTTPMethod
  hostHeader : String
  args : List (String × String)
  localIP : Nat
  deriving DecidableEq, Repr

/-- Reading `server->arg(name)`: the value of the first argument with that name,
the empty string when there is none. -/
def Request.arg (r : Request) (name : String) : String :=
  match r.args.find? (fun p => p.1 == name) with
  | some p => p.2
  | none => ""

/-- Reading `server->argName(i)`. -/
def Request.argNameAt (r : Request) (i : Nat) : String :=
  match r.args.get? i with
  | some p => p.1
  | none => ""

/-- Reading `server->arg(i)`. -/
def Request.argAt (r : Request) (i : Nat) : String :=
  match r.args.get? i with
  | some p => p.2
  | none => ""

/-- One entry of the driver's scan table. -/
structure Network where
  ssid : String
  rssi : Int
  encryptionType : Nat
  deriving DecidableEq, Repr

/-- The table left by a completed `WiFi.scanNetworks()`.  The driver reports the number
of entries as a signed 8-bit integer, so a table never has more than 127 rows. -/
structure Scan where
  nets : List Network
  bound : nets.length ≤ 127

/-- What a call of `WiFi.scanNetworks()` ends in: a completed scan with its table, or one
of the two negative codes of the driver, `WIFI_SCAN_RUNNING` (-1) and `WIFI_SCAN_FAILED`
(-2). -/
inductive ScanResult
  | complete (table : Scan)
  | running
  | failed

/-- The value `WiFi.scanNetworks()` returns: the number of rows of the table, or the
negative code. -/
def ScanResult.count : ScanResult → Int
  | ScanResult.complete sc => (sc.nets.length : Int)
  | ScanResult.running => -1
  | ScanResult.failed => -2

/-- The table the driver answers `SSID(i)`, `RSSI(i)` and `encryptionType(i)` from after
the call: the table of a completed scan, no rows otherwise. -/
def ScanResult.table : ScanResult → Scan
  | ScanResult.complete sc => sc
  | _ => ⟨[], Nat.zero_le 127⟩

/-- Reading `WiFi.SSID(i)`: the empty string when the table has no row `i`. -/
def Scan.SSID (sc : Scan) (i : Nat) : String :=
  match sc.nets.get? i with
  | some nw => nw.ssid
  | none => ""

/-- Reading `WiFi.RSSI(i)`: zero when the table has no row `i`. -/
def Scan.RSSI (sc : Scan) (i : Nat) : Int :=
  match sc.nets.get? i with
  | some nw => nw.rssi
  | none => 0

/-- Reading `WiFi.encryptionType(i)`: 255 (that is, -1 as a byte) when the table has no
row `i`. -/
def Scan.encType (sc : Scan) (i : Nat) : Nat :=
  match sc.nets.get? i with
  | some nw => nw.encryptionType
  | none => 255

/-- Every call the program makes to something outside the class, in order. -/
inductive Event
  | hostname (name : String)
  | persistent (flag : Bool)
  | mode (m : WiFiMode)
  | status (result : Nat)
  | begin (ssid password : String)
  | beginStored
  | storedSSID (present : Bool)
  | stationDisconnect
  | waitForConnectResult (result : Nat)
  | softAP (name : String)
  | softAPIP (ip : Nat)
  | softAPdisconnect (wifioff : Bool)
  | scanNetworks (n : Int)
  | newDNS
  | newServer (port : Nat)
  | dnsSetErrorReplyCode
  | dnsStart (port : Nat) (domain : String) (ip : Nat)
  | dnsProcessNextRequest
  | dnsReset
  | serverOn (uri : String) (method : HTTPMethod) (h : Handler)
  | serverOnNotFound (h : Handler)
  | serverBegin
  | serverHandleClient
  | serverReset
  | sendHeader (name value : String)
  | send (code : Nat) (contentType body : String)
  | clientStop
  | changeCallback (ssid password : String)
  | yield
  deriving DecidableEq, Repr

/-- The object behind `std::unique_ptr<DNSServer>`. -/
structure DNSServer where
  started : Bool
  deriving DecidableEq, Repr

/-- The object behind `std::unique_ptr<ESP8266WebServer>`: its port, the handlers bound
with `on`, the handler bound with `onNotFound`, and whether `begin` was called. -/
structure WebServer where
  port : Nat
  routes : List (String × HTTPMethod × Handler)
  notFound : Option Handler
  begun : Bool
  deriving DecidableEq, Repr

/-- What the program gets from outside the repository: the radio driver, the clock, the
network clients, and the standard library sort.  Each operation acts on an abstract
environment `σ`; an operation that returns a value also returns the next environment. -/
structure Platform (σ : Type) where
  millis : σ → Nat × σ
  yield : σ → σ
  hostname : String → σ → σ
  persistent : Bool → σ → σ
  mode : WiFiMode → σ → σ
  status : σ → Nat × σ
  begin : String → String → σ → σ
  beginStored : σ → σ
  storedSSID : σ → Bool × σ
  stationDisconnect : σ → σ
  waitForConnectResult : σ → Nat × σ
  softAP : String → σ → σ
  softAPIP : σ → Nat × σ
  softAPdisconnect : Bool → σ → σ
  scanNetworks : σ → ScanResult × σ
  dnsProcessNextRequest : σ → σ
  nextClient : σ → Option Request × σ
  sort : (Int → Int → Bool) → List Int → List Int

/-- The constants and page templates that `WiFiSetup.h` defines. -/
structure Config where
  RETRY_INVERTVAL : Nat
  REFETCH_INTERVAL : Nat
  HTML_HEAD : String
  HTML_STYLE : String
  HTML_SCRIPT : String
  HTML_HEAD_END : String
  HTML_SSIDS_START : String
  HTML_SSID_ITEM : String
  HTTP_SSIDS_END : String
  HTML_FORM : String
  HTML_END : String

/-- Why a run of the program produced no final state: an absent responder was
dereferenced; a loop did not end within the fuel given; or `handleRoot` reached
`int indices[n]` and `std::sort(indices, indices + n)` with a negative `n`, which has no
defined behaviour. -/
inductive Fault
  | nullDeref
  | fuel
  | negativeCount
  deriving DecidableEq, Repr

end WiFiSetup

/-- The members of the C++ class `WiFiSetup`, together with the environment the program
runs in and the trace of its calls to the outside.  `lastUpdate` holds an `unsigned long`
clock reading.  The change callback is taken to be set, and to act on the environment
only: it does not call back into the object. -/
structure WiFiSetup (σ : Type) where
  ssid : String
  password : String
  hostname : String
  changeCallback : String → String → σ → σ
  connected : Bool
  lastUpdate : Nat
  dns : Option WiFiSetup.DNSServer
  server : Option WiFiSetup.WebServer
  env : σ
  trace : List WiFiSetup.Event

namespace WiFiSetup

variable {σ : Type}

/-- Difference of two `unsigned long` clock readings, as the 32-bit target computes it. -/
def elapsed (now last : Nat) : Nat :=
  (now % 2 ^ 32 + 2 ^ 32 - last % 2 ^ 32) % 2 ^ 32

/-- Conversion of a C `int` to `uint8_t`. -/
def toU8 (x : Int) : Nat :=
  (x % 256).toNat

/-- The constructor `WiFiSetup(ssid, password, hostname, callback)`. -/
def new (ssid password hostname : String) (callback : String → String → σ → σ) (e : σ) :
    WiFiSetup σ :=
  { ssid := ssid, password := password, hostname := hostname, changeCallback := callback,
    connected := false, lastUpdate := 0, dns := none, server := none, env := e, trace := [] }

/-- Appending one call to the trace. -/
def emit (s : WiFiSetup σ) (ev : Event) : WiFiSetup σ :=
  { s with trace := s.trace ++ [ev] }

/-! ## Pure helpers of the portal -/

/-- The loop of `isIp` over the characters of the string. -/
def isIpLoop : List Char → Bool
  | [] => true
  | c :: cs => if c ≠ '.' ∧ (c < '0' ∨ c > '9') then false else isIpLoop cs

/-- The function `WiFiSetup::isIp`. -/
def isIp (str : String) : Bool :=
  isIpLoop str.data

/-- The function `WiFiSetup::toStringIp`. -/
def toStringIp (ip : Nat) : String :=
  let res := (List.range 3).foldl
    (fun res i => res ++ (toString ((ip >>> (8 * i)) &&& 0xFF) ++ ".")) ""
  res ++ toString ((ip >>> (8 * 3)) &&& 0xFF)

/-- The quality percentage computed from a signal strength in `handleRoot`. -/
def quality (rssi : Int) : Int :=
  if rssi ≥ -50 then 100
  else if rssi > -100 then 2 * (rssi + 100)
  else 0

/-! ## Calls to the platform -/

/-- A call to `millis()`; the reading is an `unsigned long`. -/
def readMillis (P : Platform σ) (s : WiFiSetup σ) : Nat × WiFiSetup σ :=
  ((P.millis s.env).1 % 2 ^ 32, { s with env := (P.millis s.env).2 })

/-- A call to `WiFi.status()`. -/
def readStatus (P : Platform σ) (s : WiFiSetup σ) : Nat × WiFiSetup σ :=
  ((P.status s.env).1,
    { s with env := (P.status s.env).2, trace := s.trace ++ [Event.status (P.status s.env).1] })

/-- A call to `WiFi.SSID()` used as a condition. -/
def readStoredSSID (P : Platform σ) (s : WiFiSetup σ) : Bool × WiFiSetup σ :=
  ((P.storedSSID s.env).1,
    { s with env := (P.storedSSID s.env).2,
             trace := s.trace ++ [Event.storedSSID (P.storedSSID s.env).1] })

/-- A call to `WiFi.waitForConnectResult()`. -/
def waitForConnectResult (P : Platform σ) (s : WiFiSetup σ) : Nat × WiFiSetup σ :=
  ((P.waitForConnectResult s.env).1,
    { s with env := (P.waitForConnectResult s.env).2,
             trace := s.trace ++ [Event.waitForConnectResult (P.waitForConnectResult s.env).1] })

/-- A call to `WiFi.softAPIP()`. -/
def readSoftAPIP (P : Platform σ) (s : WiFiSetup σ) : Nat × WiFiSetup σ :=
  ((P.softAPIP s.env).1,
    { s with env := (P.softAPIP s.env).2, trace := s.trace ++ [Event.softAPIP (P.softAPIP s.env).1] })

/-- A call to the platform that returns nothing: the environment moves and the call is
recorded. -/
def call (f : σ → σ) (ev : Event) (s : WiFiSetup σ) : WiFiSetup σ :=
  { s with env := f s.env, trace := s.trace ++ [ev] }

/-! ## Setters -/

/-- The function `WiFiSetup::setSsid`. -/
def setSsid (ssid : String) (s : WiFiSetup σ) : WiFiSetup σ :=
  { s with ssid := ssid }

/-- The function `WiFiSetup::setPassword`. -/
def setPassword (password : String) (s : WiFiSetup σ) : WiFiSetup σ :=
  { s with password := password }

/-- The function `WiFiSetup::setHostname`. -/
def setHostname (hostname : String) (s : WiFiSetup σ) : WiFiSetup σ :=
  { s with hostname := hostname }

/-- The function `WiFiSetup::setChangeCallback`. -/
def setChangeCallback (cb : String → String → σ → σ) (s : WiFiSetup σ) : WiFiSetup σ :=
  { s with changeCallback := cb }

/-! ## Connecting -/

/-- The function `WiFiSetup::connectWifi`.  The interrupt masking around
`wifi_station_disconnect()` is not traced. -/
def connectWifi (P : Platform σ) (ssid password : String) (s : WiFiSetup σ) :
    Nat × WiFiSetup σ :=
  let st := readStatus P s
  if st.1 = WL_CONNECTED then (WL_CONNECTED, st.2)
  else
    let s2 :=
      if ssid ≠ "" then call (P.begin ssid password) (Event.begin ssid password) st.2
      else
        let q := readStoredSSID P st.2
        if q.1 then
          call P.beginStored Event.beginStored
            (call P.stationDisconnect Event.stationDisconnect q.2)
        else q.2
    waitForConnectResult P s2

/-! ## The portal page -/

/-- One network as `handleRoot` writes it into the page. -/
structure Item where
  ssid : String
  rssi : Int
  quality : Int
  locked : Bool
  deriving DecidableEq, Repr

/-- The comparison handed to `std::sort` in `handleRoot`. -/
def rssiGreater (sc : Scan) (a b : Int) : Bool :=
  decide (sc.RSSI (toU8 a) > sc.RSSI (toU8 b))

/-- The inner loop of the duplicate marking: for `j` from `i + 1` up to `n`, the entry at
`j` becomes -1 when its network has the name `cssid`. -/
def markFrom (sc : Scan) (n : Nat) (cssid : String) (i : Nat) (indices : List Int) :
    List Int :=
  (List.range' (i + 1) (n - (i + 1))).foldl
    (fun ind j => if cssid = sc.SSID (toU8 (ind.getD j 0)) then ind.set j (-1) else ind)
    indices

/-- The duplicate marking loop of `handleRoot`. -/
def markDuplicates (sc : Scan) (n : Nat) (indices : List Int) : List Int :=
  (List.range n).foldl
    (fun ind i =>
      if ind.getD i 0 = -1 then ind
      else markFrom sc n (sc.SSID (toU8 (ind.getD i 0))) i ind)
    indices

/-- What the body of the last loop of `handleRoot` reads for the table row `item`: the
name, the strength, the quality computed from it, and whether the row is encrypted. -/
def itemAt (sc : Scan) (item : Nat) : Item :=
  { ssid := sc.SSID item,
    rssi := sc.RSSI item,
    quality := quality (sc.RSSI item),
    locked := decide (sc.encType item ≠ ENC_TYPE_NONE) }

/-- The entries of `indices` that the last loop of `handleRoot` writes into the page, in
the order it writes them: an entry equal to -1 is skipped, any other is cast to `uint8_t`
and rendered. -/
def renderItems (sc : Scan) (n : Nat) (indices : List Int) : List Item :=
  (List.range n).filterMap
    (fun i => if indices.getD i 0 = -1 then none else some (itemAt sc (toU8 (indices.getD i 0))))

/-- The networks `handleRoot` renders for a scan table: the indices `0 .. n-1` are sorted
by `std::sort`, duplicates are marked, and the unmarked entries are rendered. -/
def renderedNetworks (sort : (Int → Int → Bool) → List Int → List Int) (sc : Scan) :
    List Item :=
  renderItems sc sc.nets.length
    (markDuplicates sc sc.nets.length
      (sort (rssiGreater sc) ((List.range sc.nets.length).map Int.ofNat)))

/-- The markup of one rendered network. -/
def itemHtml (C : Config) (it : Item) : String :=
  ((C.HTML_SSID_ITEM.replace "\x7bv\x7d" it.ssid).replace "\x7br\x7d"
    (toString it.quality ++ " %")).replace "\x7bi\x7d"
    (if it.locked then "&#128274;" else "&#128275;")

/-- The function `WiFiSetup::handleRoot`.  The source tests the count `n` that
`WiFi.scanNetworks()` returns against 0 only; with a negative `n` the branch that declares
`int indices[n]` and sorts the range up to `indices + n` is taken, and the run ends there. -/
def handleRoot (P : Platform σ) (C : Config) (s : WiFiSetup σ) : Except Fault (WiFiSetup σ) :=
  let page := C.HTML_HEAD.replace "\x7bv\x7d" "Set up LED Controller"
    ++ C.HTML_STYLE ++ C.HTML_SCRIPT ++ C.HTML_HEAD_END
  let n := (P.scanNetworks s.env).1.count
  let sc := (P.scanNetworks s.env).1.table
  let s1 := { s with env := (P.scanNetworks s.env).2,
                     trace := s.trace ++ [Event.scanNetworks n] }
  let list : Except Fault String :=
    if n = 0 then Except.ok (page ++ "No networks found!")
    else if n < 0 then Except.error Fault.negativeCount
    else Except.ok ((renderedNetworks P.sort sc).foldl (fun pg it => pg ++ itemHtml C it)
      (page ++ C.HTML_SSIDS_START))
  match list with
  | Except.error f => Except.error f
  | Except.ok page =>
    let page := page ++ C.HTTP_SSIDS_END ++ C.HTML_FORM ++ C.HTML_END
    Except.ok (emit (emit s1 (Event.sendHeader "Content-Length" (toString page.utf8ByteSize)))
      (Event.send 200 "text/html" page))

/-! ## Form submission -/

/-- The function `WiFiSetup::handleWifiSave`, run on the request being served. -/
def handleWifiSave (P : Platform σ) (req : Request) (s : WiFiSetup σ) : WiFiSetup σ :=
  let newSSID := req.arg "ssid"
  let newPassword := req.arg "password"
  let r : Nat × WiFiSetup σ :=
    if newSSID = "" then (WL_DISCONNECTED, s) else connectWifi P newSSID newPassword s
  if r.1 = WL_CONNECTED then
    let s1 := emit r.2 (Event.send 200 "" "")
    let s2 := call (s1.changeCallback newSSID newPassword)
      (Event.changeCallback newSSID newPassword) s1
    { s2 with connected := true }
  else
    let response := "Could not connect to network \"" ++ newSSID ++ "\"."
    emit (emit r.2 (Event.sendHeader "Content-Length" (toString response.utf8ByteSize)))
      (Event.send 400 "text" response)

/-! ## Captive redirect and the not-found page -/

/-- The function `WiFiSetup::captivePortal`, run on the request being served. -/
def captivePortal (req : Request) (s : WiFiSetup σ) : Bool × WiFiSetup σ :=
  if !isIp req.hostHeader then
    (true,
      emit (emit (emit s (Event.sendHeader "Location" ("http://" ++ toStringIp req.localIP)))
        (Event.send 302 "text/plain" "")) Event.clientStop)
  else (false, s)

/-- The argument loop of `handleNotFound`.  Its counter is a `uint8_t` compared with the
`int` number of arguments, so the increment wraps at 256. -/
def argsLoop (req : Request) : Nat → Nat → String → Except Fault String
  | 0, i, message => if i < req.args.length then Except.error Fault.fuel else Except.ok message
  | fuel + 1, i, message =>
    if i < req.args.length then
      argsLoop req fuel ((i + 1) % 256)
        (message ++ (" " ++ req.argNameAt i ++ ": " ++ req.argAt i ++ "\n"))
    else Except.ok message

/-- The diagnostic message of `handleNotFound` as it stands before the argument loop. -/
def notFoundHead (req : Request) : String :=
  "File Not Found\n\n" ++ "URI: " ++ req.uri ++ "\nMethod: "
    ++ (if req.method = HTTPMethod.HTTP_GET then "GET" else "POST")
    ++ "\nArguments: " ++ toString req.args.length ++ "\n"

/-- The function `WiFiSetup::handleNotFound`, run on the request being served. -/
def handleNotFound (fuel : Nat) (req : Request) (s : WiFiSetup σ) :
    Except Fault (WiFiSetup σ) :=
  let c := captivePortal req s
  if c.1 then Except.ok c.2
  else
    match argsLoop req fuel 0 (notFoundHead req) with
    | Except.error f => Except.error f
    | Except.ok message =>
      Except.ok
        (emit (emit (emit (emit (emit c.2
          (Event.sendHeader "Cache-Control" "no-cache, no-store, must-revalidate"))
          (Event.sendHeader "Pragma" "no-cache"))
          (Event.sendHeader "Expires" "-1"))
          (Event.sendHeader "Content-Length" (toString message.utf8ByteSize)))
          (Event.send 404 "text/plain" message))

/-! ## The portal -/

/-- A call to `server->on(uri, method, handler)` on the server held by the object. -/
def serverOn (uri : String) (method : HTTPMethod) (h : Handler) (s : WiFiSetup σ) :
    WiFiSetup σ :=
  emit
    { s with
      server := s.server.map (fun srv => { srv with routes := srv.routes ++ [(uri, method, h)] }) }
    (Event.serverOn uri method h)

/-- The function `WiFiSetup::startConfigPortal`. -/
def startConfigPortal (P : Platform σ) (apName : String) (s : WiFiSetup σ) : WiFiSetup σ :=
  let s := call (P.mode WiFiMode.WIFI_AP_STA) (Event.mode WiFiMode.WIFI_AP_STA) s
  let s := { s with connected := false }
  let s := emit { s with dns := some { started := false } } Event.newDNS
  let s := emit { s with server := some { port := 80, routes := [], notFound := none,
                                          begun := false } } (Event.newServer 80)
  let s := call (P.softAP apName) (Event.softAP apName) s
  let s := emit s Event.dnsSetErrorReplyCode
  let ip := readSoftAPIP P s
  let s := emit { ip.2 with dns := ip.2.dns.map (fun _ => { started := true }) }
    (Event.dnsStart 53 "*" ip.1)
  let s := serverOn "/" HTTPMethod.HTTP_ANY Handler.handleRoot s
  let s := serverOn "/wifisave" HTTPMethod.HTTP_POST Handler.handleWifiSave s
  let s := emit
    { s with
      server := s.server.map (fun srv => { srv with notFound := some Handler.handleNotFound }) }
    (Event.serverOnNotFound Handler.handleNotFound)
  emit { s with server := s.server.map (fun srv => { srv with begun := true }) }
    Event.serverBegin

/-- Running the member function a handler value stands for. -/
def runHandler (P : Platform σ) (C : Config) (fuel : Nat) (h : Handler) (req : Request)
    (s : WiFiSetup σ) : Except Fault (WiFiSetup σ) :=
  match h with
  | Handler.handleRoot => handleRoot P C s
  | Handler.handleWifiSave => Except.ok (handleWifiSave P req s)
  | Handler.handleNotFound => handleNotFound fuel req s

/-- Whether a bound route serves a request. -/
def routeMatches (req : Request) (rt : String × HTTPMethod × Handler) : Bool :=
  rt.1 == req.uri && (rt.2.1 == HTTPMethod.HTTP_ANY || rt.2.1 == req.method)

/-- The library call `server->handleClient()`: at most one pending request is taken from
the environment and handed to the first bound handler that serves it, or to the not-found
handler. -/
def handleClient (P : Platform σ) (C : Config) (fuel : Nat) (srv : WebServer)
    (s : WiFiSetup σ) : Except Fault (WiFiSetup σ) :=
  let s1 := emit { s with env := (P.nextClient s.env).2 } Event.serverHandleClient
  match (P.nextClient s.env).1 with
  | none => Except.ok s1
  | some req =>
    if srv.begun then
      match srv.routes.find? (routeMatches req) with
      | some rt => runHandler P C fuel rt.2.2 req s1
      | none =>
        match srv.notFound with
        | some h => runHandler P C fuel h req s1
        | none => Except.ok (emit s1 (Event.send 404 "text/plain" ("Not found: " ++ req.uri)))
    else Except.ok s1

/-- The function `WiFiSetup::handleConfigPortal`. -/
def handleConfigPortal (P : Platform σ) (C : Config) (fuel : Nat) (s : WiFiSetup σ) :
    Except Fault (WiFiSetup σ) :=
  match s.dns with
  | none => Except.error Fault.nullDeref
  | some _ =>
    let s1 := call P.dnsProcessNextRequest Event.dnsProcessNextRequest s
    match s1.server with
    | none => Except.error Fault.nullDeref
    | some srv =>
      match handleClient P C fuel srv s1 with
      | Except.error f => Except.error f
      | Except.ok s2 =>
        if s2.connected then
          let st := readStatus P s2
          if st.1 = WL_CONNECTED then
            let s3 := call (P.softAPdisconnect true) (Event.softAPdisconnect true) st.2
            let s4 := call (P.mode WiFiMode.WIFI_STA) (Event.mode WiFiMode.WIFI_STA) s3
            let s5 := emit { s4 with server := none } Event.serverReset
            Except.ok (emit { s5 with dns := none } Event.dnsReset)
          else Except.ok st.2
        else Except.ok s2

/-! ## Drive modes -/

/-- The timer-driven retry, written twice in the source with the same text (in the loop
of `start` and in the second branch of `update`): when `RETRY_INVERTVAL` has elapsed since
`lastUpdate`, `lastUpdate` is set to a new clock reading and one connect attempt is made
with the stored credentials; `connected` is set when it returns `WL_CONNECTED`. -/
def retryStep (P : Platform σ) (C : Config) (s : WiFiSetup σ) : WiFiSetup σ :=
  let m := readMillis P s
  if elapsed m.1 m.2.lastUpdate ≥ C.RETRY_INVERTVAL then
    let m2 := readMillis P m.2
    let s1 := { m2.2 with lastUpdate := m2.1 }
    let c := connectWifi P s1.ssid s1.password s1
    if c.1 = WL_CONNECTED then { c.2 with connected := true } else c.2
  else m.2

/-- The loop `while (untilConnected && !connected)` of `start`; `fuel` bounds the number
of iterations and `inner` is the fuel given to each `handleConfigPortal`. -/
def startLoop (P : Platform σ) (C : Config) (untilConnected : Bool) (inner : Nat) :
    Nat → WiFiSetup σ → Except Fault (WiFiSetup σ)
  | 0, s => if untilConnected && !s.connected then Except.error Fault.fuel else Except.ok s
  | fuel + 1, s =>
    if untilConnected && !s.connected then
      match handleConfigPortal P C inner (retryStep P C s) with
      | Except.error f => Except.error f
      | Except.ok s1 => startLoop P C untilConnected inner fuel (call P.yield Event.yield s1)
    else Except.ok s

/-- The function `WiFiSetup::start`. -/
def start (P : Platform σ) (C : Config) (fuel : Nat) (untilConnected : Bool)
    (s : WiFiSetup σ) : Except Fault (WiFiSetup σ) :=
  let s := call (P.hostname s.hostname) (Event.hostname s.hostname) s
  let s := call (P.persistent false) (Event.persistent false) s
  let s := call (P.mode WiFiMode.WIFI_STA) (Event.mode WiFiMode.WIFI_STA) s
  if s.ssid ≠ "" then
    let c := connectWifi P s.ssid s.password s
    if c.1 = WL_CONNECTED then Except.ok c.2
    else startLoop P C untilConnected fuel fuel (startConfigPortal P c.2.hostname c.2)
  else startLoop P C untilConnected fuel fuel (startConfigPortal P s.hostname s)

/-- The function `WiFiSetup::update`. -/
def update (P : Platform σ) (C : Config) (fuel : Nat) (s : WiFiSetup σ) :
    Except Fault (WiFiSetup σ) :=
  let m := readMillis P s
  if elapsed m.1 m.2.lastUpdate ≥ C.REFETCH_INTERVAL ∧ m.2.connected then
    let m2 := readMillis P m.2
    let s1 := { m2.2 with lastUpdate := m2.1 }
    let st := readStatus P s1
    if st.1 = WL_CONNECTED then Except.ok st.2
    else
      let c := connectWifi P st.2.ssid st.2.password st.2
      if c.1 = WL_CONNECTED then Except.ok c.2
      else Except.ok (startConfigPortal P c.2.hostname c.2)
  else if !m.2.connected then
    let s1 := retryStep P C m.2
    if s1.server.isSome then handleConfigPortal P C fuel s1 else Except.ok s1
  else Except.ok m.2

/-- A run of `update()` calls, one after the other. -/
def updates (P : Platform σ) (C : Config) (fuel : Nat) :
    Nat → WiFiSetup σ → Except Fault (WiFiSetup σ)
  | 0, s => Except.ok s
  | k + 1, s =>
    match update P C fuel s with
    | Except.error f => Except.error f
    | Except.ok s1 => updates P C fuel k s1

/-! ## Specification vocabulary for the network list -/

/-- The contract of `std::sort`: for a comparison that is a strict weak ordering, the
result is a rearrangement of the input in which no later element compares before an
earlier one.  The order of elements that compare equal is left open. -/
def SortContract (sort : (Int → Int → Bool) → List Int → List Int) : Prop :=
  ∀ lt : Int → Int → Bool,
    (∀ a, lt a a = false) →
    (∀ a b c, lt a b = true → lt b c = true → lt a c = true) →
    (∀ a b c, lt a b = false → lt b c = false → lt a c = false) →
    ∀ l, (sort lt l).Perm l ∧ (sort lt l).Pairwise (fun a b => lt b a = false)

/-- Insertion sort driven by a comparison, one implementation of `std::sort`. -/
def insertionSortBy (lt : Int → Int → Bool) (l : List Int) : List Int :=
  l.insertionSort (fun a b => lt b a = false)

/-- What the sorted index array `L` of a scan table satisfies: it has one entry per row,
every entry is a row number, every row number is an entry, and strengths do not increase
along it. -/
structure SortedIndices (sc : Scan) (L : List Int) : Prop where
  len : L.length = sc.nets.length
  idx : ∀ k, k < sc.nets.length → ∃ m, m < sc.nets.length ∧ L.getD k 0 = (m : Int)
  onto : ∀ m, m < sc.nets.length → ∃ k, k < sc.nets.length ∧ L.getD k 0 = (m : Int)
  desc : ∀ k1 k2, k1 < k2 → k2 < sc.nets.length →
    sc.RSSI (toU8 (L.getD k2 0)) ≤ sc.RSSI (toU8 (L.getD k1 0))

/-- Position `k` of the sorted index array `L` names the same network as an earlier
position `j` with `j < i`. -/
def dupBefore (sc : Scan) (L : List Int) (i k : Nat) : Prop :=
  ∃ j, j < i ∧ j < k ∧ sc.SSID (toU8 (L.getD j 0)) = sc.SSID (toU8 (L.getD k 0))

/-- The scan table `[("A",-40),("A",-60),("B",-70)]`, with any encryption types. -/
def sampleScan (e1 e2 e3 : Nat) : Scan :=
  ⟨[⟨"A", -40, e1⟩, ⟨"A", -60, e2⟩, ⟨"B", -70, e3⟩], Nat.le_of_ble_eq_true rfl⟩

/-- A scan table with two hidden networks, one of them seen twice, and a network seen
twice under the name "A". -/
def scanFive : Scan :=
  ⟨[⟨"", -80, 7⟩, ⟨"A", -60, 2⟩, ⟨"", -70, 7⟩, ⟨"A", -50, 7⟩, ⟨"", -90, 1⟩], by decide⟩

/-! ## Specification vocabulary for the state machine -/

/-- The calls that only `startConfigPortal` makes: switching the radio to access point
plus station, creating the DNS responder and the HTTP server, bringing up the access
point, and binding and starting the responders. -/
def startsPortal : Event → Bool
  | Event.mode WiFiMode.WIFI_AP_STA => true
  | Event.newDNS => true
  | Event.newServer _ => true
  | Event.softAP _ => true
  | Event.dnsSetErrorReplyCode => true
  | Event.softAPIP _ => true
  | Event.dnsStart _ _ _ => true
  | Event.serverOn _ _ _ => true
  | Event.serverOnNotFound _ => true
  | Event.serverBegin => true
  | _ => false

/-- The calls `connectWifi` makes to the driver. -/
def isConnectEvent : Event → Bool
  | Event.status _ => true
  | Event.begin _ _ => true
  | Event.beginStored => true
  | Event.storedSSID _ => true
  | Event.stationDisconnect => true
  | Event.waitForConnectResult _ => true
  | _ => false

/-- A state in which no portal exists and none was ever started. -/
def NoPortal (s : WiFiSetup σ) : Prop :=
  s.server = none ∧ s.dns = none ∧ ∀ ev, ev ∈ s.trace → startsPortal ev = false

/-- The server `startConfigPortal` leaves behind: port 80, the form and the submission
endpoint bound once each, the not-found handler bound, and started. -/
def portalServer : WebServer :=
  { port := 80,
    routes := [("/", HTTPMethod.HTTP_ANY, Handler.handleRoot),
               ("/wifisave", HTTPMethod.HTTP_POST, Handler.handleWifiSave)],
    notFound := some Handler.handleNotFound,
    begun := true }

/-- The calls one run of `startConfigPortal` makes, given the address the driver reports
for the access point. -/
def portalEvents (apName : String) (ip : Nat) : List Event :=
  [Event.mode WiFiMode.WIFI_AP_STA, Event.newDNS, Event.newServer 80, Event.softAP apName,
   Event.dnsSetErrorReplyCode, Event.softAPIP ip, Event.dnsStart 53 "*" ip,
   Event.serverOn "/" HTTPMethod.HTTP_ANY Handler.handleRoot,
   Event.serverOn "/wifisave" HTTPMethod.HTTP_POST Handler.handleWifiSave,
   Event.serverOnNotFound Handler.handleNotFound, Event.serverBegin]

/-- A platform for examples.  Its environment is the clock; every clock reading advances
it by 1000.  `WiFi.status()` always answers `st` and `WiFi.waitForConnectResult()` always
answers `wr`; no client ever connects and no network is ever found. -/
def fixedPlatform (st wr : Nat) : Platform Nat :=
  { millis := fun e => (e, e + 1000),
    yield := fun e => e,
    hostname := fun _ e => e,
    persistent := fun _ e => e,
    mode := fun _ e => e,
    status := fun e => (st, e),
    begin := fun _ _ e => e,
    beginStored := fun e => e,
    storedSSID := fun e => (true, e),
    stationDisconnect := fun e => e,
    waitForConnectResult := fun e => (wr, e),
    softAP := fun _ e => e,
    softAPIP := fun e => (0x0104A8C0, e),
    softAPdisconnect := fun _ e => e,
    scanNetworks := fun e => (ScanResult.complete ⟨[], Nat.zero_le 127⟩, e),
    dnsProcessNextRequest := fun e => e,
    nextClient := fun e => (none, e),
    sort := insertionSortBy }

/-- A request for the portal page. -/
def rootRequest : Request :=
  { uri := "/", method := HTTPMethod.HTTP_GET, hostHeader := "192.168.4.1", args := [],
    localIP := 0x0104A8C0 }

/-- A platform for examples on which a client asks for the portal page whenever the server
looks for one, every scan finds the three networks of `sampleScan`, and the driver always
reports disconnected. -/
def visitorPlatform : Platform Nat :=
  { fixedPlatform 6 6 with
    scanNetworks := fun e => (ScanResult.complete (sampleScan 7 4 7), e),
    nextClient := fun e => (some rootRequest, e) }

/-- A configuration for examples: retry every 1000 ms, recheck every 5000 ms, empty page
templates. -/
def sampleConfig : Config :=
  { RETRY_INVERTVAL := 1000, REFETCH_INTERVAL := 5000, HTML_HEAD := "", HTML_STYLE := "",
    HTML_SCRIPT := "", HTML_HEAD_END := "", HTML_SSIDS_START := "", HTML_SSID_ITEM := "",
    HTTP_SSIDS_END := "", HTML_FORM := "", HTML_END := "" }

/-- A change callback for examples: it leaves the environment alone. -/
def idleCallback : String → String → Nat → Nat :=
  fun _ _ e => e

/-- The portal is being served: the HTTP server and the DNS responder exist as
`startConfigPortal` leaves them, and the connected flag is false. -/
def Serving (s : WiFiSetup σ) : Prop :=
  s.server = some portalServer ∧ s.dns = some { started := true } ∧ s.connected = false

/-- The driver never reports `WL_CONNECTED`, neither from a status read nor from a
connect attempt. -/
def NeverConnected (P : Platform σ) : Prop :=
  (∀ e, (P.status e).1 ≠ WL_CONNECTED) ∧ (∀ e, (P.waitForConnectResult e).1 ≠ WL_CONNECTED)

/-- Every request the environment delivers has fewer than 256 arguments. -/
def SmallRequests (P : Platform σ) : Prop :=
  ∀ e req, (P.nextClient e).1 = some req → req.args.length < 256

/-- No call of `WiFi.scanNetworks()` returns a negative code. -/
def ScansComplete (P : Platform σ) : Prop :=
  ∀ e, 0 ≤ (P.scanNetworks e).1.count

/-- The state `t` has the same members as `s`: only the environment and the trace may
differ. -/
def SameMembers (s t : WiFiSetup σ) : Prop :=
  t.ssid = s.ssid ∧ t.password = s.password ∧ t.hostname = s.hostname ∧
  t.changeCallback = s.changeCallback ∧ t.connected = s.connected ∧
  t.lastUpdate = s.lastUpdate ∧ t.dns = s.dns ∧ t.server = s.server

/-- The calls a run from state `s` to state `t` added to the trace. -/
def since (s t : WiFiSetup σ) : List Event :=
  t.trace.drop s.trace.length

/-- A response status line sent to the client. -/
def isSend : Event → Bool
  | Event.send _ _ _ => true
  | _ => false

/-- An invocation of the change callback. -/
def isChangeCallback : Event → Bool
  | Event.changeCallback _ _ => true
  | _ => false

/-- A wait for the outcome of an association. -/
def isWait : Event → Bool
  | Event.waitForConnectResult _ => true
  | _ => false

/-- The beginning of an association. -/
def isBegin : Event → Bool
  | Event.begin _ _ => true
  | Event.beginStored => true
  | _ => false

/-- A request with 256 arguments whose Host header is a literal address. -/
def bigRequest : Request :=
  { uri := "/x", method := HTTPMethod.HTTP_GET, hostHeader := "192.168.4.1",
    args := List.replicate 256 ("a", "1"), localIP := 0x0104A8C0 }

/-- A form submission naming the network "cafe". -/
def cafeRequest : Request :=
  { uri := "/wifisave", method := HTTPMethod.HTTP_POST, hostHeader := "192.168.4.1",
    args := [("ssid", "cafe"), ("password", "latte")], localIP := 0x0104A8C0 }

/-- A form submission with an empty network name. -/
def emptyRequest : Request :=
  { uri := "/wifisave", method := HTTPMethod.HTTP_POST, hostHeader := "192.168.4.1",
    args := [("ssid", ""), ("password", "latte")], localIP := 0x0104A8C0 }

/-- A supervisor with stored network "old" whose portal has been started. -/
def servingState : WiFiSetup Nat :=
  startConfigPortal (fixedPlatform 6 3) "esp" (new "old" "oldpw" "esp" idleCallback 0)

/-- The body `handleWifiSave` sends when it rejects a submission. -/
def rejectionBody (newSSID : String) : String :=
  "Could not connect to network \"" ++ newSSID ++ "\"."

/-- A character of a literal address: a decimal digit or a dot. -/
def IpChar (c : Char) : Prop :=
  c = '.' ∨ ('0' ≤ c ∧ c ≤ '9')

/-- A request for an unknown path under a host name. -/
def nameRequest : Request :=
  { uri := "/generate_204", method := HTTPMethod.HTTP_GET, hostHeader := "example.com",
    args := [], localIP := 0x0104A8C0 }

/-- A request for an unknown path under the literal address of the access point. -/
def addressRequest : Request :=
  { uri := "/missing", method := HTTPMethod.HTTP_GET, hostHeader := "192.168.4.1",
    args := [("q", "1")], localIP := 0x0104A8C0 }

/-! ## Specification vocabulary for literal addresses -/

/-- The scan behind `isDottedDecimal`: `inGroup` says that the current group already has a
digit.  A dot must close a group that has one, and so must the end of the string. -/
def dottedDigitsFrom : Bool → List Char → Bool
  | inGroup, [] => inGroup
  | inGroup, c :: cs =>
    if '0' ≤ c ∧ c ≤ '9' then dottedDigitsFrom true cs
    else if c = '.' then inGroup && dottedDigitsFrom false cs
    else false

/-- The spec's reading of a literal numeric address, word for word: a non-empty dotted
sequence of digits, that is one or more groups of decimal digits separated by single
dots. -/
def isDottedDecimal (str : String) : Bool :=
  dottedDigitsFrom false str.data

/-- A request for an unknown path with a given Host header. -/
def hostRequest (host : String) : Request :=
  { uri := "/hotspot-detect.html", method := HTTPMethod.HTTP_GET, hostHeader := host,
    args := [], localIP := 0x0104A8C0 }

/-! ## Specification vocabulary for reachable states -/

/-- The stored configuration of `t` is that of `s`: ssid, password, hostname and the
change callback. -/
def SameConfig (s t : WiFiSetup σ) : Prop :=
  t.ssid = s.ssid ∧ t.password = s.password ∧ t.hostname = s.hostname ∧
  t.changeCallback = s.changeCallback

/-- The responders of `t` are those of `s`. -/
def SamePortal (s t : WiFiSetup σ) : Prop :=
  t.dns = s.dns ∧ t.server = s.server

/-- The responders come and go together: either there is no HTTP server and no DNS
responder, or both exist as `startConfigPortal` leaves them. -/
def Paired (s : WiFiSetup σ) : Prop :=
  (s.server = none ∧ s.dns = none) ∨
  (s.server = some portalServer ∧ s.dns = some { started := true })

/-- The states a program can bring the object into: construction, then any sequence of
setters and of `start` and `update` calls that return. -/
inductive Reachable (P : Platform σ) (C : Config) : WiFiSetup σ → Prop
  | construct (ssid password hostname : String) (callback : String → String → σ → σ) (e : σ) :
      Reachable P C (new ssid password hostname callback e)
  | setSsid (ssid : String) (s : WiFiSetup σ) :
      Reachable P C s → Reachable P C (setSsid ssid s)
  | setPassword (password : String) (s : WiFiSetup σ) :
      Reachable P C s → Reachable P C (setPassword password s)
  | setHostname (hostname : String) (s : WiFiSetup σ) :
      Reachable P C s → Reachable P C (setHostname hostname s)
  | setChangeCallback (cb : String → String → σ → σ) (s : WiFiSetup σ) :
      Reachable P C s → Reachable P C (setChangeCallback cb s)
  | start (fuel : Nat) (untilConnected : Bool) (s t : WiFiSetup σ) :
      Reachable P C s → start P C fuel untilConnected s = Except.ok t → Reachable P C t
  | update (fuel : Nat) (s t : WiFiSetup σ) :
      Reachable P C s → update P C fuel s = Except.ok t → Reachable P C t

/-! ## Specification vocabulary for the timers -/

/-- The state in which `update` reads the status on a recheck: the clock has been read a
second time and `lastUpdate` holds that reading. -/
def recheckState (P : Platform σ) (s : WiFiSetup σ) : WiFiSetup σ :=
  { (readMillis P (readMillis P s).2).2 with
    lastUpdate := (readMillis P (readMillis P s).2).1 }

/-- A platform whose clock is frozen at `t`, whose status reads say disconnected, and
whose first connect attempt fails while every later one succeeds.  The environment counts
the connect attempts made. -/
def retryPlatform (t : Nat) : Platform Nat :=
  { fixedPlatform 6 3 with
    millis := fun e => (t, e),
    waitForConnectResult := fun e => (if e = 0 then 6 else 3, e + 1) }

/-- The configuration `C` with both timers set to an interval no clock difference can
reach: an `unsigned long` difference is below `2 ^ 32`. -/
def disarmed (C : Config) : Config :=
  { C with RETRY_INVERTVAL := 2 ^ 32, REFETCH_INTERVAL := 2 ^ 32 }

/-- The strings of a list one after the other. -/
def joinAll : List String → String
  | [] => ""
  | x :: xs => x ++ joinAll xs

/-- The page `handleRoot` sends for a list of networks: the head of the page, the start of
the list, the markup of each network in the order of the list, the end of the list, the
form and the end of the page. -/
def listPage (C : Config) (items : List Item) : String :=
  C.HTML_HEAD.replace "\x7bv\x7d" "Set up LED Controller" ++ C.HTML_STYLE ++ C.HTML_SCRIPT
    ++ C.HTML_HEAD_END ++ C.HTML_SSIDS_START ++ joinAll (items.map (itemHtml C))
    ++ C.HTTP_SSIDS_END ++ C.HTML_FORM ++ C.HTML_END

/-- The example platform with a scan that always completes with the table `sc`. -/
def scanPlatform (sc : Scan) : Platform Nat :=
  { fixedPlatform 6 6 with scanNetworks := fun e => (ScanResult.complete sc, e) }

/-- A configuration for examples whose list is an HTML list and whose item template shows
the name, the quality and the lock of a network. -/
def listConfig : Config :=
  { sampleConfig with
    HTML_SSIDS_START := "<ul>",
    HTML_SSID_ITEM := "<li>\x7bv\x7d \x7br\x7d \x7bi\x7d</li>",
    HTTP_SSIDS_END := "</ul>" }

end WiFiSetup

/-! # Theorems -/

namespace WiFiSetup

variable {σ : Type}

/-! ## Signal quality -/

/-- C6: for every integer signal strength `s`, the quality percentage of `handleRoot` is 0
when `s ≤ -100`, is 100 when `s ≥ -50`, and is `2*(s+100)` when `-100 < s < -50`; in that
middle range the value lies in `[0,100)`, and for every `s` it lies in `[0,100]`. -/
theorem quality_piecewise_bounded (s : Int) :
    (s ≤ -100 → quality s = 0) ∧
    (s ≥ -50 → quality s = 100) ∧
    (-100 < s ∧ s < -50 → quality s = 2 * (s + 100) ∧ 0 ≤ quality s ∧ quality s < 100) ∧
    (0 ≤ quality s ∧ quality s ≤ 100) := by
  unfold quality
  refine ⟨fun h => ?_, fun h => ?_, fun h => ?_, ?_⟩
  · rw [if_neg (by omega), if_neg (by omega)]
  · rw [if_pos h]
  · rw [if_neg (by omega), if_pos (by omega)]
    omega
  · split_ifs <;> omega

/-- C7: the quality mapping of `handleRoot` is monotonic: `s1 ≤ s2` gives
`quality s1 ≤ quality s2`. -/
theorem quality_monotone (s1 s2 : Int) (h : s1 ≤ s2) : quality s1 ≤ quality s2 := by
  unfold quality
  split_ifs <;> omega

/-- C7 at the strengths -75 and -60: the qualities are 50 and 80. -/
theorem quality_monotone_witness :
    (-75 : Int) ≤ -60 ∧ quality (-75) = 50 ∧ quality (-60) = 80 ∧
      quality (-75) ≤ quality (-60) :=
  ⟨by decide, by decide, by decide, quality_monotone (-75) (-60) (by decide)⟩

/-! ## The network list of the portal page -/

/-- Reading a list after one entry was overwritten. -/
theorem getD_set_ite (l : List Int) (a k : Nat) (v : Int) :
    (l.set a v).getD k 0 = if a = k ∧ a < l.length then v else l.getD k 0 := by
  simp only [List.getD_eq_getElem?_getD, List.getElem?_set]
  by_cases h : a = k
  · subst h
    by_cases h2 : a < l.length
    · simp [h2]
    · simp [h2, List.getElem?_eq_none (Nat.le_of_not_lt h2)]
  · simp [h]

/-- The inner marking loop, started at `a` and run for `len` steps, overwrites with -1
exactly the entries in that range that name the network `c`, and keeps the length. -/
theorem markRange_spec (sc : Scan) (c : String) (len : Nat) : ∀ (a : Nat) (ind : List Int),
    ((List.range' a len).foldl
      (fun ind j => if c = sc.SSID (toU8 (ind.getD j 0)) then ind.set j (-1) else ind)
      ind).length = ind.length ∧
    ∀ k, ((List.range' a len).foldl
      (fun ind j => if c = sc.SSID (toU8 (ind.getD j 0)) then ind.set j (-1) else ind)
      ind).getD k 0 =
      if a ≤ k ∧ k < a + len ∧ k < ind.length ∧ c = sc.SSID (toU8 (ind.getD k 0)) then -1
      else ind.getD k 0 := by
  induction len with
  | zero =>
    intro a ind
    refine ⟨rfl, fun k => ?_⟩
    rw [if_neg (by omega)]
    rfl
  | succ len ih =>
    intro a ind
    rw [List.range'_succ, List.foldl_cons]
    obtain ⟨hlen, hget⟩ := ih (a + 1)
      (if c = sc.SSID (toU8 (ind.getD a 0)) then ind.set a (-1) else ind)
    have hl1 : (if c = sc.SSID (toU8 (ind.getD a 0)) then ind.set a (-1) else ind).length
        = ind.length := by
      split_ifs <;> simp
    refine ⟨hlen.trans hl1, fun k => ?_⟩
    rw [hget k, hl1]
    by_cases hka : k = a
    · subst hka
      have : ¬ (k + 1 ≤ k) := by omega
      simp only [this, false_and, if_false]
      by_cases hc : c = sc.SSID (toU8 (ind.getD k 0))
      · rw [if_pos hc, getD_set_ite]
        by_cases hk : k < ind.length
        · rw [if_pos ⟨rfl, hk⟩, if_pos ⟨Nat.le_refl _, by omega, hk, hc⟩]
        · rw [if_neg (fun h => hk h.2), if_neg (fun h => hk h.2.2.1)]
      · rw [if_neg hc, if_neg (fun h => hc h.2.2.2)]
    · have hk1 : (if c = sc.SSID (toU8 (ind.getD a 0)) then ind.set a (-1) else ind).getD k 0
          = ind.getD k 0 := by
        split_ifs
        · rw [getD_set_ite, if_neg (fun h => hka h.1.symm)]
        · rfl
      rw [hk1]
      have e : (a + 1 ≤ k ∧ k < a + 1 + len ∧ k < ind.length ∧ c = sc.SSID (toU8 (ind.getD k 0)))
          ↔ (a ≤ k ∧ k < a + (len + 1) ∧ k < ind.length ∧ c = sc.SSID (toU8 (ind.getD k 0))) := by
        constructor
        · rintro ⟨h1, h2, h3, h4⟩
          exact ⟨by omega, by omega, h3, h4⟩
        · rintro ⟨h1, h2, h3, h4⟩
          exact ⟨by omega, by omega, h3, h4⟩
      simp only [e]

/-- A duplicate found among the first `i` positions is found among the first `i2` when `i ≤
i2`. -/
theorem dupBefore_mono (sc : Scan) (L : List Int) {i i2 k : Nat} (h : i ≤ i2)
    (hd : dupBefore sc L i k) : dupBefore sc L i2 k := by
  obtain ⟨j, h1, h2, h3⟩ := hd
  exact ⟨j, by omega, h2, h3⟩

/-- Invariant of the outer marking loop: after `i` rounds an entry is -1 when its network is
named by an earlier position among the first `i`, and is untouched otherwise. -/
theorem markPrefix_spec (sc : Scan) (n : Nat) (L : List Int) (hL : L.length = n)
    (hne : ∀ k, k < n → L.getD k 0 ≠ -1) : ∀ i, i ≤ n →
    ((List.range i).foldl
      (fun ind i =>
        if ind.getD i 0 = -1 then ind
        else markFrom sc n (sc.SSID (toU8 (ind.getD i 0))) i ind) L).length = n ∧
    ∀ k, k < n →
      (dupBefore sc L i k → ((List.range i).foldl
        (fun ind i =>
          if ind.getD i 0 = -1 then ind
          else markFrom sc n (sc.SSID (toU8 (ind.getD i 0))) i ind) L).getD k 0 = -1) ∧
      (¬ dupBefore sc L i k → ((List.range i).foldl
        (fun ind i =>
          if ind.getD i 0 = -1 then ind
          else markFrom sc n (sc.SSID (toU8 (ind.getD i 0))) i ind) L).getD k 0 = L.getD k 0) := by
  intro i
  induction i with
  | zero =>
    intro _
    refine ⟨by simpa using hL, fun k _ => ⟨?_, fun _ => by simp⟩⟩
    rintro ⟨j, h1, _⟩
    omega
  | succ i ih =>
    intro hi
    obtain ⟨hlen, hget⟩ := ih (by omega)
    rw [List.range_succ, List.foldl_append, List.foldl_cons, List.foldl_nil]
    generalize (List.range i).foldl
        (fun ind i =>
          if ind.getD i 0 = -1 then ind
          else markFrom sc n (sc.SSID (toU8 (ind.getD i 0))) i ind) L = ind at hlen hget ⊢
    by_cases hm : ind.getD i 0 = -1
    · rw [if_pos hm]
      have hdi : dupBefore sc L i i := by
        by_contra hnd
        exact hne i (by omega) (((hget i (by omega)).2 hnd).symm.trans hm)
      refine ⟨hlen, fun k hk => ⟨fun hd => ?_, fun hnd => ?_⟩⟩
      · apply (hget k hk).1
        obtain ⟨j, h1, h2, h3⟩ := hd
        by_cases hji : j < i
        · exact ⟨j, hji, h2, h3⟩
        · have : j = i := by omega
          subst this
          obtain ⟨j2, g1, g2, g3⟩ := hdi
          exact ⟨j2, g1, by omega, g3.trans h3⟩
      · exact (hget k hk).2 (fun hd => hnd (dupBefore_mono sc L (by omega) hd))
    · rw [if_neg hm]
      have hndi : ¬ dupBefore sc L i i := fun hd => hm ((hget i (by omega)).1 hd)
      have hii : ind.getD i 0 = L.getD i 0 := (hget i (by omega)).2 hndi
      unfold markFrom
      obtain ⟨mlen, mget⟩ := markRange_spec sc (sc.SSID (toU8 (ind.getD i 0)))
        (n - (i + 1)) (i + 1) ind
      refine ⟨mlen.trans hlen, fun k hk => ⟨fun hd => ?_, fun hnd => ?_⟩⟩
      · rw [mget k]
        by_cases hdk : dupBefore sc L i k
        · have := (hget k hk).1 hdk
          split_ifs
          · rfl
          · exact this
        · have hkk := (hget k hk).2 hdk
          obtain ⟨j, h1, h2, h3⟩ := hd
          have hj : j = i := by
            by_contra hji
            exact hdk ⟨j, by omega, h2, h3⟩
          subst hj
          rw [if_pos]
          refine ⟨by omega, by omega, by omega, ?_⟩
          rw [hii, hkk]
          exact h3
      · have hdk : ¬ dupBefore sc L i k :=
          fun hd => hnd (dupBefore_mono sc L (by omega) hd)
        have hkk := (hget k hk).2 hdk
        rw [mget k, if_neg, hkk]
        rintro ⟨h1, _, _, h4⟩
        rw [hii, hkk] at h4
        exact hnd ⟨i, by omega, by omega, h4⟩

/-- The marking loop keeps the first position of every name and overwrites every later one
with -1. -/
theorem markDuplicates_spec (sc : Scan) (n : Nat) (L : List Int) (hL : L.length = n)
    (hne : ∀ k, k < n → L.getD k 0 ≠ -1) (k : Nat) (hk : k < n) :
    (dupBefore sc L k k → (markDuplicates sc n L).getD k 0 = -1) ∧
    (¬ dupBefore sc L k k → (markDuplicates sc n L).getD k 0 = L.getD k 0) := by
  obtain ⟨_, hget⟩ := markPrefix_spec sc n L hL hne n (Nat.le_refl n)
  unfold markDuplicates
  refine ⟨fun hd => (hget k hk).1 (dupBefore_mono sc L (by omega) hd), fun hnd => ?_⟩
  apply (hget k hk).2
  rintro ⟨j, h1, h2, h3⟩
  exact hnd ⟨j, h2, h2, h3⟩

/-- The cast to `uint8_t` keeps a row number below 256. -/
theorem toU8_ofNat (m : Nat) (h : m < 256) : toU8 (m : Int) = m := by
  unfold toU8
  omega

/-- A sort that meets the contract of `std::sort` turns the indices `0 .. n-1` into a sorted
index array. -/
theorem sortedIndices_of_contract (sort : (Int → Int → Bool) → List Int → List Int)
    (hs : SortContract sort) (sc : Scan) :
    SortedIndices sc (sort (rssiGreater sc) ((List.range sc.nets.length).map Int.ofNat)) := by
  obtain ⟨hperm, hpw⟩ := hs (rssiGreater sc)
    (fun a => by simp [rssiGreater])
    (fun a b c h1 h2 => by
      simp only [rssiGreater, decide_eq_true_eq] at h1 h2 ⊢
      omega)
    (fun a b c h1 h2 => by
      simp only [rssiGreater, decide_eq_false_iff_not] at h1 h2 ⊢
      omega)
    ((List.range sc.nets.length).map Int.ofNat)
  generalize sort (rssiGreater sc) ((List.range sc.nets.length).map Int.ofNat) = L at hperm hpw
  have hlen : L.length = sc.nets.length := by
    rw [hperm.length_eq]
    simp
  have hmem : ∀ x, x ∈ L ↔ ∃ m, m < sc.nets.length ∧ x = (m : Int) := by
    intro x
    rw [hperm.mem_iff]
    simp only [List.mem_map, List.mem_range]
    constructor
    · rintro ⟨m, h1, h2⟩
      exact ⟨m, h1, h2.symm⟩
    · rintro ⟨m, h1, h2⟩
      exact ⟨m, h1, h2.symm⟩
  refine ⟨hlen, fun k hk => ?_, fun m hm => ?_, fun k1 k2 h12 hk2 => ?_⟩
  · rw [List.getD_eq_getElem L 0 (by omega)]
    exact (hmem _).1 (List.getElem_mem _)
  · obtain ⟨k, hk, e⟩ := List.getElem_of_mem ((hmem (m : Int)).2 ⟨m, hm, rfl⟩)
    refine ⟨k, by omega, ?_⟩
    rw [List.getD_eq_getElem L 0 hk]
    exact e
  · have := (List.pairwise_iff_getElem.1 hpw) k1 k2 (by omega) (by omega) h12
    rw [List.getD_eq_getElem L 0 (by omega), List.getD_eq_getElem L 0 (by omega)]
    simp only [rssiGreater, decide_eq_false_iff_not] at this
    omega

/-- The rendered entries are the rows at the positions that no earlier position duplicates. -/
theorem mem_renderItems (sc : Scan) (L : List Int) (hL : SortedIndices sc L) (it : Item) :
    it ∈ renderItems sc sc.nets.length (markDuplicates sc sc.nets.length L) ↔
      ∃ k, k < sc.nets.length ∧ ¬ dupBefore sc L k k ∧ it = itemAt sc (toU8 (L.getD k 0)) := by
  have hne : ∀ k, k < sc.nets.length → L.getD k 0 ≠ -1 := by
    intro k hk
    obtain ⟨m, _, e⟩ := hL.idx k hk
    rw [e]
    omega
  unfold renderItems
  rw [List.mem_filterMap]
  constructor
  · rintro ⟨k, hk, h⟩
    rw [List.mem_range] at hk
    obtain ⟨h1, h2⟩ := markDuplicates_spec sc sc.nets.length L hL.len hne k hk
    by_cases hd : dupBefore sc L k k
    · rw [if_pos (h1 hd)] at h
      exact absurd h (by simp)
    · rw [h2 hd, if_neg (hne k hk)] at h
      exact ⟨k, hk, hd, (Option.some.inj h).symm⟩
  · rintro ⟨k, hk, hd, e⟩
    obtain ⟨_, h2⟩ := markDuplicates_spec sc sc.nets.length L hL.len hne k hk
    refine ⟨k, List.mem_range.2 hk, ?_⟩
    rw [h2 hd, if_neg (hne k hk), e]

/-- A relation that holds between the rows of any two kept positions, taken in order, holds
pairwise along the rendered list. -/
theorem pairwise_renderItems (sc : Scan) (L : List Int) (hL : SortedIndices sc L)
    (S : Item → Item → Prop)
    (hS : ∀ k1 k2, k1 < k2 → k2 < sc.nets.length → ¬ dupBefore sc L k1 k1 →
      ¬ dupBefore sc L k2 k2 →
      S (itemAt sc (toU8 (L.getD k1 0))) (itemAt sc (toU8 (L.getD k2 0)))) :
    (renderItems sc sc.nets.length (markDuplicates sc sc.nets.length L)).Pairwise S := by
  have hne : ∀ k, k < sc.nets.length → L.getD k 0 ≠ -1 := by
    intro k hk
    obtain ⟨m, _, e⟩ := hL.idx k hk
    rw [e]
    omega
  unfold renderItems
  refine List.Pairwise.filterMap _ ?_ (List.Pairwise.and_mem.1 (List.pairwise_lt_range sc.nets.length))
  rintro k1 k2 ⟨m1, m2, h12⟩ b1 hb1 b2 hb2
  rw [List.mem_range] at m1 m2
  obtain ⟨p1, q1⟩ := markDuplicates_spec sc sc.nets.length L hL.len hne k1 m1
  obtain ⟨p2, q2⟩ := markDuplicates_spec sc sc.nets.length L hL.len hne k2 m2
  rw [Option.mem_def] at hb1 hb2
  by_cases hd1 : dupBefore sc L k1 k1
  · rw [if_pos (p1 hd1)] at hb1
    exact absurd hb1 (by simp)
  by_cases hd2 : dupBefore sc L k2 k2
  · rw [if_pos (p2 hd2)] at hb2
    exact absurd hb2 (by simp)
  rw [q1 hd1, if_neg (hne k1 m1)] at hb1
  rw [q2 hd2, if_neg (hne k2 m2)] at hb2
  rw [← Option.some.inj hb1, ← Option.some.inj hb2]
  exact hS k1 k2 h12 m2 hd1 hd2

/-- Every position has a first position with the same name. -/
theorem exists_first (sc : Scan) (L : List Int) (k : Nat) :
    ∃ k0, k0 ≤ k ∧ ¬ dupBefore sc L k0 k0 ∧
      sc.SSID (toU8 (L.getD k0 0)) = sc.SSID (toU8 (L.getD k 0)) := by
  induction k using Nat.strong_induction_on with
  | _ k ih =>
    by_cases hd : dupBefore sc L k k
    · obtain ⟨j, h1, _, h3⟩ := hd
      obtain ⟨k0, g1, g2, g3⟩ := ih j h1
      exact ⟨k0, by omega, g2, g3.trans h3⟩
    · exact ⟨k, Nat.le_refl k, hd, rfl⟩

/-- A network of the table is read back by the driver getters at its row. -/
theorem scan_row (sc : Scan) (nw : Network) (h : nw ∈ sc.nets) :
    ∃ m, m < sc.nets.length ∧ sc.SSID m = nw.ssid ∧ sc.RSSI m = nw.rssi := by
  obtain ⟨m, hm, e⟩ := List.getElem_of_mem h
  refine ⟨m, hm, ?_, ?_⟩
  · simp [Scan.SSID, List.get?_eq_getElem?, List.getElem?_eq_getElem hm, e]
  · simp [Scan.RSSI, List.get?_eq_getElem?, List.getElem?_eq_getElem hm, e]

/-- The driver getters at a row below the count read a network of the table. -/
theorem row_scan (sc : Scan) (m : Nat) (hm : m < sc.nets.length) :
    ∃ nw, nw ∈ sc.nets ∧ sc.SSID m = nw.ssid ∧ sc.RSSI m = nw.rssi := by
  refine ⟨sc.nets[m], List.getElem_mem _, ?_, ?_⟩
  · simp [Scan.SSID, List.get?_eq_getElem?, List.getElem?_eq_getElem hm]
  · simp [Scan.RSSI, List.get?_eq_getElem?, List.getElem?_eq_getElem hm]

/-- Insertion sort meets the contract of `std::sort`. -/
theorem insertionSortBy_contract : SortContract insertionSortBy := by
  intro lt hirr htr hneg l
  refine ⟨List.perm_insertionSort _ l, ?_⟩
  haveI : IsTotal Int (fun a b => lt b a = false) := ⟨fun a b => by
    by_cases h : lt b a = true
    · right
      by_contra h2
      have h3 : lt a b = true := by simpa using h2
      have := htr a b a h3 h
      rw [hirr a] at this
      exact absurd this (by simp)
    · left
      simpa using h⟩
  haveI : IsTrans Int (fun a b => lt b a = false) := ⟨fun a b c h1 h2 => hneg c b a h2 h1⟩
  exact List.sorted_insertionSort _ l

/-- A rendered entry is a scanned network, and no scanned network of the same name is
stronger. -/
theorem strongest_of_sortedIndices (sc : Scan) (L : List Int) (hL : SortedIndices sc L)
    (it : Item)
    (hit : it ∈ renderItems sc sc.nets.length (markDuplicates sc sc.nets.length L)) :
    (∃ nw, nw ∈ sc.nets ∧ nw.ssid = it.ssid ∧ nw.rssi = it.rssi) ∧
    ∀ nw, nw ∈ sc.nets → nw.ssid = it.ssid → nw.rssi ≤ it.rssi := by
  obtain ⟨k, hk, hd, e⟩ := (mem_renderItems sc L hL it).1 hit
  obtain ⟨m, hm, em⟩ := hL.idx k hk
  have hb := sc.bound
  have hkm : toU8 (L.getD k 0) = m := by rw [em, toU8_ofNat m (by omega)]
  rw [hkm] at e
  subst e
  constructor
  · obtain ⟨nw, h1, h2, h3⟩ := row_scan sc m hm
    exact ⟨nw, h1, h2.symm, h3.symm⟩
  · intro nw hnw hs2
    obtain ⟨m2, hm2, f1, f2⟩ := scan_row sc nw hnw
    obtain ⟨k2, hk2, ek2⟩ := hL.onto m2 hm2
    have hkm2 : toU8 (L.getD k2 0) = m2 := by rw [ek2, toU8_ofNat m2 (by omega)]
    have hle : k ≤ k2 := by
      by_contra hlt
      apply hd
      refine ⟨k2, by omega, by omega, ?_⟩
      rw [hkm, hkm2, f1, hs2]
      rfl
    show nw.rssi ≤ sc.RSSI m
    rw [← f2, ← hkm, ← hkm2]
    rcases Nat.eq_or_lt_of_le hle with h | h
    · rw [h]
    · exact hL.desc k k2 h hk2

/-- No name is rendered twice. -/
theorem nodup_of_sortedIndices (sc : Scan) (L : List Int) (hL : SortedIndices sc L) :
    ((renderItems sc sc.nets.length (markDuplicates sc sc.nets.length L)).map Item.ssid).Nodup := by
  unfold List.Nodup
  rw [List.pairwise_map]
  refine pairwise_renderItems sc L hL _ (fun k1 k2 h12 _ _ hd2 heq => ?_)
  exact hd2 ⟨k1, h12, h12, heq⟩

/-- The rendered names are the names of the table. -/
theorem mem_ssid_of_sortedIndices (sc : Scan) (L : List Int) (hL : SortedIndices sc L)
    (s : String) :
    s ∈ (renderItems sc sc.nets.length (markDuplicates sc sc.nets.length L)).map Item.ssid ↔
      s ∈ sc.nets.map Network.ssid := by
  have hb := sc.bound
  rw [List.mem_map, List.mem_map]
  constructor
  · rintro ⟨it, hit, rfl⟩
    obtain ⟨⟨nw, h1, h2, _⟩, _⟩ := strongest_of_sortedIndices sc L hL it hit
    exact ⟨nw, h1, h2⟩
  · rintro ⟨nw, hnw, rfl⟩
    obtain ⟨m, hm, f1, _⟩ := scan_row sc nw hnw
    obtain ⟨k, hk, ek⟩ := hL.onto m hm
    obtain ⟨k0, g1, g2, g3⟩ := exists_first sc L k
    refine ⟨itemAt sc (toU8 (L.getD k0 0)), ?_, ?_⟩
    · exact (mem_renderItems sc L hL _).2 ⟨k0, by omega, g2, rfl⟩
    · show sc.SSID (toU8 (L.getD k0 0)) = nw.ssid
      rw [g3, ek, toU8_ofNat m (by omega), f1]

/-- The sample table has one sorted index array. -/
theorem sorted_sample (L : List Int) (e1 e2 e3 : Nat)
    (hL : SortedIndices (sampleScan e1 e2 e3) L) :
    L = [0, 1, 2] := by
  have hlen := hL.len
  have r0 : (sampleScan e1 e2 e3).RSSI (toU8 0) = -40 := rfl
  have r1 : (sampleScan e1 e2 e3).RSSI (toU8 1) = -60 := rfl
  have r2 : (sampleScan e1 e2 e3).RSSI (toU8 2) = -70 := rfl
  have hn : (sampleScan e1 e2 e3).nets.length = 3 := rfl
  have h0 : 0 < (sampleScan e1 e2 e3).nets.length := by rw [hn]; omega
  have h1 : 1 < (sampleScan e1 e2 e3).nets.length := by rw [hn]; omega
  have h2 : 2 < (sampleScan e1 e2 e3).nets.length := by rw [hn]; omega
  match L, hlen with
  | [a, b, c], _ =>
    obtain ⟨ma, ha, ea⟩ := hL.idx 0 h0
    obtain ⟨mb, hb, eb⟩ := hL.idx 1 h1
    obtain ⟨mc, hc, ec⟩ := hL.idx 2 h2
    have d01 := hL.desc 0 1 (by omega) h1
    have d12 := hL.desc 1 2 (by omega) h2
    obtain ⟨k0, hk0, o0⟩ := hL.onto 0 h0
    obtain ⟨k1, hk1, o1⟩ := hL.onto 1 h1
    obtain ⟨k2, hk2, o2⟩ := hL.onto 2 h2
    rw [hn] at ha hb hc hk0 hk1 hk2
    simp only [List.getD_cons_zero, List.getD_cons_succ] at ea eb ec d01 d12
    subst ea eb ec
    interval_cases ma <;> interval_cases mb <;> interval_cases mc <;>
      simp only [r0, r1, r2, Nat.cast_ofNat, Nat.cast_zero, Nat.cast_one] at d01 d12 <;>
      first
        | rfl
        | (exfalso; omega)
        | (exfalso; interval_cases k0 <;> interval_cases k1 <;> interval_cases k2 <;>
            simp at o0 o1 o2)

/-- Marking and rendering on the sorted index array of the sample table. -/
theorem render_sample (e1 e2 e3 : Nat) :
    (renderItems (sampleScan e1 e2 e3) 3 (markDuplicates (sampleScan e1 e2 e3) 3 [0, 1, 2])).map
      (fun it => (it.ssid, it.rssi)) = [("A", -40), ("B", -70)] := by
  rfl

/-- The sorting and marking loops on a non-empty scan table: the networks kept are in
non-increasing order of strength, every one is a row of the table and has the highest
strength among the rows with its name; and on the table `[("A",-40),("A",-60),("B",-70)]`
the networks kept are `[("A",-40),("B",-70)]`.  This holds for every `std::sort` that meets
its contract. -/
theorem renderedNetworks_sorted_strongest
    (sort : (Int → Int → Bool) → List Int → List Int) (hs : SortContract sort) :
    (∀ sc : Scan, sc.nets ≠ [] →
      ((renderedNetworks sort sc).map Item.rssi).Pairwise (fun a b => a ≥ b) ∧
      ∀ it, it ∈ renderedNetworks sort sc →
        (∃ nw, nw ∈ sc.nets ∧ nw.ssid = it.ssid ∧ nw.rssi = it.rssi) ∧
        ∀ nw, nw ∈ sc.nets → nw.ssid = it.ssid → nw.rssi ≤ it.rssi) ∧
    (∀ e1 e2 e3 : Nat,
      (renderedNetworks sort (sampleScan e1 e2 e3)).map (fun it => (it.ssid, it.rssi))
        = [("A", -40), ("B", -70)]) := by
  refine ⟨fun sc _ => ⟨?_, fun it hit => ?_⟩, fun e1 e2 e3 => ?_⟩
  · rw [List.pairwise_map]
    have hL := sortedIndices_of_contract sort hs sc
    exact pairwise_renderItems sc _ hL _ (fun k1 k2 h12 h2 _ _ => hL.desc k1 k2 h12 h2)
  · exact strongest_of_sortedIndices sc _ (sortedIndices_of_contract sort hs sc) it hit
  · unfold renderedNetworks
    rw [sorted_sample _ e1 e2 e3 (sortedIndices_of_contract sort hs (sampleScan e1 e2 e3))]
    exact render_sample e1 e2 e3

/-- The networks kept with insertion sort as `std::sort`, on the sample table with
encryption types 7, 4, 7. -/
theorem renderedNetworks_sample_insertionSort :
    SortContract insertionSortBy ∧
    renderedNetworks insertionSortBy (sampleScan 7 4 7) =
      [⟨"A", -40, 100, false⟩, ⟨"B", -70, 60, false⟩] ∧
    (renderedNetworks insertionSortBy (sampleScan 7 4 7)).map (fun it => (it.ssid, it.rssi))
        = [("A", -40), ("B", -70)] :=
  ⟨insertionSortBy_contract, by decide,
    (renderedNetworks_sorted_strongest insertionSortBy insertionSortBy_contract).2 7 4 7⟩

/-- The marking loop on any scan table: every name that occurs in the table is the name
of exactly one network kept, and no network kept has a name absent from the table.  This
holds for every `std::sort` that meets its contract. -/
theorem renderedNetworks_each_ssid_once
    (sort : (Int → Int → Bool) → List Int → List Int) (hs : SortContract sort)
    (sc : Scan) (s : String) :
    (s ∈ sc.nets.map Network.ssid → ((renderedNetworks sort sc).map Item.ssid).count s = 1) ∧
    (s ∉ sc.nets.map Network.ssid → s ∉ (renderedNetworks sort sc).map Item.ssid) := by
  have hL := sortedIndices_of_contract sort hs sc
  constructor
  · intro h
    exact List.count_eq_one_of_mem (nodup_of_sortedIndices sc _ hL)
      ((mem_ssid_of_sortedIndices sc _ hL s).2 h)
  · intro h hm
    exact h ((mem_ssid_of_sortedIndices sc _ hL s).1 hm)

/-- The marking loop with insertion sort as `std::sort`, on a table where "A" and the
hidden name occur several times and "C" does not occur. -/
theorem renderedNetworks_each_ssid_once_scanFive :
    SortContract insertionSortBy ∧
    (renderedNetworks insertionSortBy scanFive).map Item.ssid = ["A", ""] ∧
    ((renderedNetworks insertionSortBy scanFive).map Item.ssid).count "A" = 1 ∧
    "C" ∉ (renderedNetworks insertionSortBy scanFive).map Item.ssid :=
  ⟨insertionSortBy_contract, by decide,
    (renderedNetworks_each_ssid_once insertionSortBy insertionSortBy_contract scanFive "A").1
      (by decide),
    (renderedNetworks_each_ssid_once insertionSortBy insertionSortBy_contract scanFive "C").2
      (by decide)⟩

/-! ## The connection state machine and the portal handlers -/

/-- A connect attempt changes no member of the object. -/
theorem connectWifi_fields (P : Platform σ) (a b : String) (s : WiFiSetup σ) :
    (connectWifi P a b s).2.ssid = s.ssid ∧
    (connectWifi P a b s).2.password = s.password ∧
    (connectWifi P a b s).2.hostname = s.hostname ∧
    (connectWifi P a b s).2.changeCallback = s.changeCallback ∧
    (connectWifi P a b s).2.connected = s.connected ∧
    (connectWifi P a b s).2.lastUpdate = s.lastUpdate ∧
    (connectWifi P a b s).2.dns = s.dns ∧
    (connectWifi P a b s).2.server = s.server := by
  unfold connectWifi
  simp only [readStatus, readStoredSSID, waitForConnectResult, call]
  split_ifs <;> simp

/-- The calls of one connect attempt: driver calls only, at most one wait and one begin, no
`begin(ssid, password)` for an empty ssid, and for a non-empty ssid that ends Connected
either a status read that said Connected or a begin with exactly the given credentials. -/
theorem connectWifi_trace (P : Platform σ) (a b : String) (s : WiFiSetup σ) :
    ∃ evs, (connectWifi P a b s).2.trace = s.trace ++ evs ∧
      (∀ ev, ev ∈ evs → isConnectEvent ev = true) ∧
      evs.countP isWait ≤ 1 ∧ evs.countP isBegin ≤ 1 ∧
      (a = "" → ∀ x y, Event.begin x y ∉ evs) ∧
      ((connectWifi P a b s).1 = WL_CONNECTED → a ≠ "" →
        Event.status WL_CONNECTED ∈ evs ∨ Event.begin a b ∈ evs) := by
  unfold connectWifi
  simp only [readStatus, readStoredSSID, waitForConnectResult, call]
  split_ifs with h1 h2 h3
  · exact ⟨[Event.status (P.status s.env).1], by simp, by simp [isConnectEvent],
      by simp [isWait], by simp [isBegin], by simp, fun _ _ => Or.inl (by simp [h1])⟩
  · exact ⟨[Event.status (P.status s.env).1, Event.begin a b,
        Event.waitForConnectResult (P.waitForConnectResult (P.begin a b (P.status s.env).2)).1],
      by simp, by simp [isConnectEvent], by simp [isWait], by simp [isBegin],
      fun h0 => absurd h0 h2, fun _ _ => Or.inr (by simp)⟩
  · exact ⟨[Event.status (P.status s.env).1, Event.storedSSID (P.storedSSID (P.status s.env).2).1,
        Event.stationDisconnect, Event.beginStored,
        Event.waitForConnectResult (P.waitForConnectResult (P.beginStored
          (P.stationDisconnect (P.storedSSID (P.status s.env).2).2))).1],
      by simp, by simp [isConnectEvent], by simp [isWait], by simp [isBegin],
      by simp, fun _ hne => absurd hne h2⟩
  · exact ⟨[Event.status (P.status s.env).1, Event.storedSSID (P.storedSSID (P.status s.env).2).1,
        Event.waitForConnectResult (P.waitForConnectResult (P.storedSSID (P.status s.env).2).2).1],
      by simp, by simp [isConnectEvent], by simp [isWait], by simp [isBegin],
      by simp, fun _ hne => absurd hne h2⟩

/-- A connect attempt returns Connected when every wait for the result does. -/
theorem connectWifi_connected (P : Platform σ)
    (hconn : ∀ e, (P.waitForConnectResult e).1 = WL_CONNECTED) (a b : String)
    (s : WiFiSetup σ) : (connectWifi P a b s).1 = WL_CONNECTED := by
  unfold connectWifi
  simp only [readStatus, readStoredSSID, waitForConnectResult, call]
  split_ifs <;> simp [hconn]

/-- A connect attempt does not return Connected when neither a status read nor a wait ever
does. -/
theorem connectWifi_failed (P : Platform σ)
    (hw : ∀ e, (P.waitForConnectResult e).1 ≠ WL_CONNECTED)
    (hs : ∀ e, (P.status e).1 ≠ WL_CONNECTED) (a b : String)
    (s : WiFiSetup σ) : (connectWifi P a b s).1 ≠ WL_CONNECTED := by
  unfold connectWifi
  simp only [readStatus, readStoredSSID, waitForConnectResult, call]
  split_ifs with h1 <;> first | exact absurd h1 (hs _) | exact hw _

/-- No call of a connect attempt is a call of a portal start. -/
theorem startsPortal_of_connectEvent (ev : Event) (h : isConnectEvent ev = true) :
    startsPortal ev = false := by
  cases ev <;> simp_all [isConnectEvent, startsPortal]

/-- A connect attempt starts no portal. -/
theorem noPortal_connectWifi (P : Platform σ) (a b : String) (s : WiFiSetup σ)
    (hs : NoPortal s) : NoPortal (connectWifi P a b s).2 := by
  obtain ⟨h1, h2, h3⟩ := hs
  obtain ⟨_, _, _, _, _, _, f7, f8⟩ := connectWifi_fields P a b s
  obtain ⟨evs, ht, hev, _⟩ := connectWifi_trace P a b s
  refine ⟨f8.trans h1, f7.trans h2, fun ev hmem => ?_⟩
  rw [ht, List.mem_append] at hmem
  rcases hmem with h | h
  · exact h3 ev h
  · exact startsPortal_of_connectEvent ev (hev ev h)

/-- The timer-driven retry starts no portal. -/
theorem noPortal_retryStep (P : Platform σ) (C : Config) (s : WiFiSetup σ)
    (hs : NoPortal s) : NoPortal (retryStep P C s) := by
  unfold retryStep
  have hm : ∀ t : WiFiSetup σ, NoPortal t → ∀ v, NoPortal { (readMillis P t).2 with lastUpdate := v } :=
    fun t ht v => ht
  have hm2 : ∀ t : WiFiSetup σ, NoPortal t → NoPortal (readMillis P t).2 := fun t ht => ht
  simp only []
  split_ifs
  · exact noPortal_connectWifi P _ _ _ (hm _ (hm2 s hs) _)
  · exact noPortal_connectWifi P _ _ _ (hm _ (hm2 s hs) _)
  · exact hm2 s hs

/-- With connect attempts that always succeed and a non-empty ssid, `start` returns without
a portal. -/
theorem start_noPortal (P : Platform σ) (C : Config)
    (hconn : ∀ e, (P.waitForConnectResult e).1 = WL_CONNECTED)
    (s : WiFiSetup σ) (hs : NoPortal s) (hssid : s.ssid ≠ "") (fuel : Nat)
    (untilConnected : Bool) :
    ∃ s1, start P C fuel untilConnected s = Except.ok s1 ∧ NoPortal s1 := by
  have h0 : NoPortal (call (P.mode WiFiMode.WIFI_STA) (Event.mode WiFiMode.WIFI_STA)
      (call (P.persistent false) (Event.persistent false)
        (call (P.hostname s.hostname) (Event.hostname s.hostname) s))) := by
    obtain ⟨h1, h2, h3⟩ := hs
    refine ⟨h1, h2, fun ev hmem => ?_⟩
    simp only [call, List.mem_append, List.mem_singleton] at hmem
    rcases hmem with ((h | h) | h) | h
    · exact h3 ev h
    · subst h; rfl
    · subst h; rfl
    · subst h; rfl
  unfold start
  simp only []
  have hs2 : (call (P.mode WiFiMode.WIFI_STA) (Event.mode WiFiMode.WIFI_STA)
      (call (P.persistent false) (Event.persistent false)
        (call (P.hostname s.hostname) (Event.hostname s.hostname) s))).ssid ≠ "" := hssid
  rw [if_pos hs2, if_pos (connectWifi_connected P hconn _ _ _)]
  exact ⟨_, rfl, noPortal_connectWifi P _ _ _ h0⟩

/-- With connect attempts that always succeed, `update` returns without starting a portal. -/
theorem update_noPortal (P : Platform σ) (C : Config)
    (hconn : ∀ e, (P.waitForConnectResult e).1 = WL_CONNECTED)
    (s : WiFiSetup σ) (hs : NoPortal s) (fuel : Nat) :
    ∃ s1, update P C fuel s = Except.ok s1 ∧ NoPortal s1 := by
  have hm : ∀ t : WiFiSetup σ, NoPortal t → ∀ v, NoPortal { (readMillis P t).2 with lastUpdate := v } :=
    fun t ht v => ht
  have hm2 : ∀ t : WiFiSetup σ, NoPortal t → NoPortal (readMillis P t).2 := fun t ht => ht
  have hst : ∀ t : WiFiSetup σ, NoPortal t → NoPortal (readStatus P t).2 := by
    rintro t ⟨h1, h2, h3⟩
    refine ⟨h1, h2, fun ev hmem => ?_⟩
    simp only [readStatus, List.mem_append, List.mem_singleton] at hmem
    rcases hmem with h | h
    · exact h3 ev h
    · subst h; rfl
  unfold update
  simp only []
  split_ifs with c1 c2 c3 c4 c5
  · exact ⟨_, rfl, hst _ (hm _ (hm2 s hs) _)⟩
  · exact ⟨_, rfl, noPortal_connectWifi P _ _ _ (hst _ (hm _ (hm2 s hs) _))⟩
  · exact absurd (connectWifi_connected P hconn _ _ _) c3
  · have := (noPortal_retryStep P C _ (hm2 s hs)).1
    rw [this] at c5
    exact absurd c5 (by simp)
  · exact ⟨_, rfl, noPortal_retryStep P C _ (hm2 s hs)⟩
  · exact ⟨_, rfl, hm2 s hs⟩

/-- With connect attempts that always succeed, any run of `update` calls returns without
starting a portal. -/
theorem updates_noPortal (P : Platform σ) (C : Config)
    (hconn : ∀ e, (P.waitForConnectResult e).1 = WL_CONNECTED) (fuel : Nat) :
    ∀ (n : Nat) (s : WiFiSetup σ), NoPortal s →
      ∃ s1, updates P C fuel n s = Except.ok s1 ∧ NoPortal s1 := by
  intro n
  induction n with
  | zero => exact fun s hs => ⟨s, rfl, hs⟩
  | succ n ih =>
    intro s hs
    obtain ⟨s1, e1, h1⟩ := update_noPortal P C hconn s hs fuel
    obtain ⟨s2, e2, h2⟩ := ih s1 h1
    exact ⟨s2, by simp only [updates, e1, e2], h2⟩

/-- C1: for every non-empty stored ssid and every password, if the driver's connect
attempt always reports Connected, `start(untilConnected)` returns for either value of
`untilConnected` without starting the portal, and any following run of `update()` calls,
at any clock readings, returns without starting it either: no access point, DNS responder
or HTTP server is ever created. -/
theorem start_then_updates_never_start_portal (P : Platform σ) (C : Config)
    (hconn : ∀ e, (P.waitForConnectResult e).1 = WL_CONNECTED)
    (ssid password hostname : String) (callback : String → String → σ → σ) (e : σ)
    (hssid : ssid ≠ "") (untilConnected : Bool) (fuel : Nat) :
    ∃ s1, start P C fuel untilConnected (new ssid password hostname callback e) = Except.ok s1 ∧
      NoPortal s1 ∧
      ∀ (n fuel2 : Nat), ∃ s2, updates P C fuel2 n s1 = Except.ok s2 ∧ NoPortal s2 := by
  have h0 : NoPortal (new ssid password hostname callback e) :=
    ⟨rfl, rfl, fun ev hmem => absurd hmem (List.not_mem_nil ev)⟩
  obtain ⟨s1, e1, h1⟩ := start_noPortal P C hconn _ h0 hssid fuel untilConnected
  exact ⟨s1, e1, h1, fun n fuel2 => updates_noPortal P C hconn fuel2 n s1 h1⟩

/-- C1 on a driver whose status reads say disconnected and whose connect attempts say
connected. -/
theorem start_then_updates_never_start_portal_witness :
    (∀ e, ((fixedPlatform 6 3).waitForConnectResult e).1 = WL_CONNECTED) ∧ "home" ≠ "" ∧
    ∃ s1, start (fixedPlatform 6 3) sampleConfig 0 true
        (new "home" "secret" "esp" idleCallback 5000) = Except.ok s1 ∧
      NoPortal s1 ∧
      ∀ (n fuel2 : Nat), ∃ s2, updates (fixedPlatform 6 3) sampleConfig fuel2 n s1 = Except.ok s2 ∧
        NoPortal s2 :=
  ⟨fun _ => rfl, by decide,
    start_then_updates_never_start_portal (fixedPlatform 6 3) sampleConfig (fun _ => rfl)
      "home" "secret" "esp" idleCallback 5000 (by decide) true 0⟩

/-- What `startConfigPortal` leaves behind, in any state. -/
theorem startConfigPortal_spec (P : Platform σ) (apName : String) (s : WiFiSetup σ) :
    (startConfigPortal P apName s).server = some portalServer ∧
    (startConfigPortal P apName s).dns = some { started := true } ∧
    (startConfigPortal P apName s).connected = false ∧
    (startConfigPortal P apName s).trace = s.trace ++
      portalEvents apName (P.softAPIP (P.softAP apName (P.mode WiFiMode.WIFI_AP_STA s.env))).1 ∧
    (startConfigPortal P apName s).env =
      (P.softAPIP (P.softAP apName (P.mode WiFiMode.WIFI_AP_STA s.env))).2 ∧
    (startConfigPortal P apName s).ssid = s.ssid ∧
    (startConfigPortal P apName s).password = s.password ∧
    (startConfigPortal P apName s).hostname = s.hostname ∧
    (startConfigPortal P apName s).lastUpdate = s.lastUpdate := by
  simp [startConfigPortal, serverOn, call, emit, readSoftAPIP, portalServer, portalEvents]

/-- The loop of `start` is not entered when `untilConnected` is false. -/
theorem startLoop_false (P : Platform σ) (C : Config) (inner fuel : Nat) (s : WiFiSetup σ) :
    startLoop P C false inner fuel s = Except.ok s := by
  cases fuel <;> simp [startLoop]

/-- Every state has its own members. -/
theorem SameMembers.refl (s : WiFiSetup σ) : SameMembers s s :=
  ⟨rfl, rfl, rfl, rfl, rfl, rfl, rfl, rfl⟩

/-- Having the same members is transitive. -/
theorem SameMembers.trans {s t u : WiFiSetup σ} (h1 : SameMembers s t) (h2 : SameMembers t u) :
    SameMembers s u := by
  obtain ⟨a1, a2, a3, a4, a5, a6, a7, a8⟩ := h1
  obtain ⟨b1, b2, b3, b4, b5, b6, b7, b8⟩ := h2
  exact ⟨b1.trans a1, b2.trans a2, b3.trans a3, b4.trans a4, b5.trans a5, b6.trans a6,
    b7.trans a7, b8.trans a8⟩

/-- A state with the members of a serving state is serving. -/
theorem SameMembers.serving {s t : WiFiSetup σ} (h : SameMembers s t) (hs : Serving s) :
    Serving t := by
  obtain ⟨_, _, _, _, a5, _, a7, a8⟩ := h
  exact ⟨a8.trans hs.1, a7.trans hs.2.1, a5.trans hs.2.2⟩

/-- A connect attempt keeps the members. -/
theorem sameMembers_connectWifi (P : Platform σ) (a b : String) (s : WiFiSetup σ) :
    SameMembers s (connectWifi P a b s).2 := by
  obtain ⟨f1, f2, f3, f4, f5, f6, f7, f8⟩ := connectWifi_fields P a b s
  exact ⟨f1, f2, f3, f4, f5, f6, f7, f8⟩

/-- When `handleRoot` returns it has made three calls: the scan, the length header and
the page. -/
theorem handleRoot_sent (P : Platform σ) (C : Config) (s t : WiFiSetup σ)
    (h : handleRoot P C s = Except.ok t) :
    ∃ page, t = emit (emit
      { s with env := (P.scanNetworks s.env).2,
               trace := s.trace ++ [Event.scanNetworks (P.scanNetworks s.env).1.count] }
      (Event.sendHeader "Content-Length" (toString page.utf8ByteSize)))
      (Event.send 200 "text/html" page) := by
  unfold handleRoot at h
  simp only [] at h
  by_cases h0 : (P.scanNetworks s.env).1.count = 0
  · rw [if_pos h0] at h
    exact ⟨_, (Except.ok.inj h).symm⟩
  · rw [if_neg h0] at h
    by_cases h1 : (P.scanNetworks s.env).1.count < 0
    · rw [if_pos h1] at h
      exact absurd h (by simp)
    · rw [if_neg h1] at h
      exact ⟨_, (Except.ok.inj h).symm⟩

/-- The only fault of `handleRoot` is the negative count: it returns when the scan
returns a count that is not negative. -/
theorem handleRoot_ok (P : Platform σ) (C : Config) (s : WiFiSetup σ)
    (h : 0 ≤ (P.scanNetworks s.env).1.count) : ∃ t, handleRoot P C s = Except.ok t := by
  unfold handleRoot
  simp only []
  split_ifs
  · exact ⟨_, rfl⟩
  · omega
  · exact ⟨_, rfl⟩

/-- With a negative count `handleRoot` does not return. -/
theorem handleRoot_negative (P : Platform σ) (C : Config) (s : WiFiSetup σ)
    (h : (P.scanNetworks s.env).1.count < 0) :
    handleRoot P C s = Except.error Fault.negativeCount := by
  unfold handleRoot
  simp only []
  rw [if_neg (by omega), if_pos h]

/-- Rendering the form keeps the members. -/
theorem sameMembers_handleRoot (P : Platform σ) (C : Config) (s t : WiFiSetup σ)
    (h : handleRoot P C s = Except.ok t) : SameMembers s t := by
  obtain ⟨page, hp⟩ := handleRoot_sent P C s t h
  rw [hp]
  exact ⟨rfl, rfl, rfl, rfl, rfl, rfl, rfl, rfl⟩

/-- The captive redirect keeps the members. -/
theorem sameMembers_captivePortal (req : Request) (s : WiFiSetup σ) :
    SameMembers s (captivePortal req s).2 := by
  unfold captivePortal
  split_ifs
  · exact ⟨rfl, rfl, rfl, rfl, rfl, rfl, rfl, rfl⟩
  · exact SameMembers.refl s

/-- Recording a call keeps the members. -/
theorem sameMembers_emit (s : WiFiSetup σ) (ev : Event) : SameMembers s (emit s ev) :=
  ⟨rfl, rfl, rfl, rfl, rfl, rfl, rfl, rfl⟩

/-- The not-found handler keeps the members when it returns. -/
theorem sameMembers_handleNotFound (fuel : Nat) (req : Request) (s t : WiFiSetup σ)
    (h : handleNotFound fuel req s = Except.ok t) : SameMembers s t := by
  unfold handleNotFound at h
  simp only [] at h
  split_ifs at h with hc
  · rw [← Except.ok.inj h]
    exact sameMembers_captivePortal req s
  · split at h
    · exact absurd h (by simp)
    · rw [← Except.ok.inj h]
      exact ((((((sameMembers_captivePortal req s).trans (sameMembers_emit _ _)).trans
        (sameMembers_emit _ _)).trans (sameMembers_emit _ _)).trans
        (sameMembers_emit _ _)).trans (sameMembers_emit _ _))

/-- A rejected submission keeps the members. -/
theorem sameMembers_handleWifiSave_rejected (P : Platform σ) (req : Request) (s : WiFiSetup σ)
    (h : req.arg "ssid" = "" ∨
      (connectWifi P (req.arg "ssid") (req.arg "password") s).1 ≠ WL_CONNECTED) :
    SameMembers s (handleWifiSave P req s) := by
  unfold handleWifiSave
  simp only []
  by_cases he : req.arg "ssid" = ""
  · rw [if_pos he, if_neg (show ¬ WL_DISCONNECTED = WL_CONNECTED by decide)]
    exact (sameMembers_emit _ _).trans (sameMembers_emit _ _)
  · rw [if_neg he]
    have hc := h.resolve_left he
    rw [if_neg hc]
    exact ((sameMembers_connectWifi P _ _ s).trans (sameMembers_emit _ _)).trans
      (sameMembers_emit _ _)

/-- The argument loop ends when there are fewer than 256 arguments and the fuel covers them. -/
theorem argsLoop_ok (req : Request) (hsmall : req.args.length < 256) :
    ∀ (fuel i : Nat) (message : String), i ≤ req.args.length → req.args.length - i ≤ fuel →
      ∃ m, argsLoop req fuel i message = Except.ok m := by
  intro fuel
  induction fuel with
  | zero =>
    intro i message h1 h2
    exact ⟨message, by simp only [argsLoop]; rw [if_neg (by omega)]⟩
  | succ fuel ih =>
    intro i message h1 h2
    by_cases hi : i < req.args.length
    · have hmod : (i + 1) % 256 = i + 1 := Nat.mod_eq_of_lt (by omega)
      simp only [argsLoop]
      rw [if_pos hi, hmod]
      exact ih (i + 1) _ (by omega) (by omega)
    · exact ⟨message, by simp only [argsLoop]; rw [if_neg hi]⟩

/-- The not-found handler returns when the request has fewer than 256 arguments. -/
theorem handleNotFound_ok (fuel : Nat) (req : Request) (s : WiFiSetup σ)
    (hsmall : req.args.length < 256) (hfuel : 256 ≤ fuel) :
    ∃ t, handleNotFound fuel req s = Except.ok t := by
  unfold handleNotFound
  simp only []
  split_ifs
  · exact ⟨_, rfl⟩
  · obtain ⟨m, hm⟩ := argsLoop_ok req hsmall fuel 0 (notFoundHead req) (Nat.zero_le _)
      (by omega)
    rw [hm]
    exact ⟨_, rfl⟩

/-- With a driver that never connects, a handler that returns keeps the members. -/
theorem sameMembers_runHandler (P : Platform σ) (C : Config) (hn : NeverConnected P)
    (fuel : Nat) (h : Handler) (req : Request) (s t : WiFiSetup σ)
    (hr : runHandler P C fuel h req s = Except.ok t) : SameMembers s t := by
  cases h with
  | handleRoot => exact sameMembers_handleRoot P C s t hr
  | handleWifiSave =>
    rw [← Except.ok.inj hr]
    exact sameMembers_handleWifiSave_rejected P req s
      (Or.inr (connectWifi_failed P hn.2 hn.1 _ _ s))
  | handleNotFound => exact sameMembers_handleNotFound fuel req s t hr

/-- A handler returns when the request has fewer than 256 arguments and no scan returns
a negative count. -/
theorem runHandler_ok (P : Platform σ) (C : Config) (hscan : ScansComplete P) (fuel : Nat)
    (h : Handler) (req : Request) (s : WiFiSetup σ) (hsmall : req.args.length < 256)
    (hfuel : 256 ≤ fuel) :
    ∃ t, runHandler P C fuel h req s = Except.ok t := by
  cases h with
  | handleRoot => exact handleRoot_ok P C s (hscan s.env)
  | handleWifiSave => exact ⟨_, rfl⟩
  | handleNotFound => exact handleNotFound_ok fuel req s hsmall hfuel

/-- With a driver that never connects, serving a client keeps the members. -/
theorem sameMembers_handleClient (P : Platform σ) (C : Config) (hn : NeverConnected P)
    (fuel : Nat) (srv : WebServer) (s t : WiFiSetup σ)
    (hr : handleClient P C fuel srv s = Except.ok t) : SameMembers s t := by
  have h1 : SameMembers s (emit { s with env := (P.nextClient s.env).2 }
      Event.serverHandleClient) := ⟨rfl, rfl, rfl, rfl, rfl, rfl, rfl, rfl⟩
  unfold handleClient at hr
  simp only [] at hr
  split at hr
  · rw [← Except.ok.inj hr]
    exact h1
  · split_ifs at hr
    · split at hr
      · exact h1.trans (sameMembers_runHandler P C hn fuel _ _ _ t hr)
      · split at hr
        · exact h1.trans (sameMembers_runHandler P C hn fuel _ _ _ t hr)
        · rw [← Except.ok.inj hr]
          exact h1.trans (sameMembers_emit _ _)
    · rw [← Except.ok.inj hr]
      exact h1

/-- Serving a client returns when requests have fewer than 256 arguments and no scan
returns a negative count. -/
theorem handleClient_ok (P : Platform σ) (C : Config) (hsmall : SmallRequests P)
    (hscan : ScansComplete P) (fuel : Nat) (hfuel : 256 ≤ fuel) (srv : WebServer)
    (s : WiFiSetup σ) :
    ∃ t, handleClient P C fuel srv s = Except.ok t := by
  unfold handleClient
  simp only []
  split
  · exact ⟨_, rfl⟩
  · rename_i req hreq
    have hq := hsmall s.env req hreq
    split_ifs
    · split
      · exact runHandler_ok P C hscan fuel _ req _ hq hfuel
      · split
        · exact runHandler_ok P C hscan fuel _ req _ hq hfuel
        · exact ⟨_, rfl⟩
    · exact ⟨_, rfl⟩

/-- With a driver that never connects, pumping a serving portal leaves it serving, and
returns when requests have fewer than 256 arguments and no scan returns a negative count. -/
theorem handleConfigPortal_serving (P : Platform σ) (C : Config) (hn : NeverConnected P)
    (fuel : Nat) (s : WiFiSetup σ) (hs : Serving s) :
    (∀ t, handleConfigPortal P C fuel s = Except.ok t → Serving t) ∧
    (SmallRequests P → ScansComplete P → 256 ≤ fuel →
      ∃ t, handleConfigPortal P C fuel s = Except.ok t) := by
  obtain ⟨h1, h2, h3⟩ := hs
  have hs1 : Serving (call P.dnsProcessNextRequest Event.dnsProcessNextRequest s) :=
    ⟨h1, h2, h3⟩
  unfold handleConfigPortal
  rw [h2]
  simp only []
  have e1 : (call P.dnsProcessNextRequest Event.dnsProcessNextRequest s).server
      = some portalServer := h1
  rw [e1]
  simp only []
  cases hc : handleClient P C fuel portalServer
      (call P.dnsProcessNextRequest Event.dnsProcessNextRequest s) with
  | error f =>
    simp only []
    refine ⟨fun t ht => absurd ht (by simp), fun hsm hsc hf => ?_⟩
    · obtain ⟨t, ht⟩ := handleClient_ok P C hsm hsc fuel hf portalServer
        (call P.dnsProcessNextRequest Event.dnsProcessNextRequest s)
      rw [hc] at ht
      exact absurd ht (by simp)
  | ok s2 =>
    have hs2 : Serving s2 := (sameMembers_handleClient P C hn fuel _ _ s2 hc).serving hs1
    simp only []
    rw [if_neg (by rw [hs2.2.2]; simp)]
    exact ⟨fun t ht => by rw [← Except.ok.inj ht]; exact hs2, fun _ _ _ => ⟨s2, rfl⟩⟩

/-- With a driver that never connects, the timer-driven retry leaves a serving portal
serving. -/
theorem retryStep_serving (P : Platform σ) (C : Config) (hn : NeverConnected P)
    (s : WiFiSetup σ) (hs : Serving s) : Serving (retryStep P C s) := by
  unfold retryStep
  simp only []
  split_ifs with h1 h2
  · exact absurd h2 (connectWifi_failed P hn.2 hn.1 _ _ _)
  · exact (sameMembers_connectWifi P _ _ _).serving hs
  · exact hs

/-- With a driver that never connects, `update` leaves a serving portal serving. -/
theorem update_serving (P : Platform σ) (C : Config) (hn : NeverConnected P)
    (fuel : Nat) (s : WiFiSetup σ) (hs : Serving s) :
    (∀ t, update P C fuel s = Except.ok t → Serving t) ∧
    (SmallRequests P → ScansComplete P → 256 ≤ fuel →
      ∃ t, update P C fuel s = Except.ok t) := by
  have hm : Serving (readMillis P s).2 := hs
  have hr := retryStep_serving P C hn _ hm
  unfold update
  simp only []
  rw [if_neg (by rw [hm.2.2]; simp), if_pos (by rw [hm.2.2]; rfl),
    if_pos (by rw [hr.1]; rfl)]
  exact handleConfigPortal_serving P C hn fuel _ hr

/-- With a driver that never connects, any run of `update` calls leaves a serving portal
serving. -/
theorem updates_serving (P : Platform σ) (C : Config) (hn : NeverConnected P) (fuel : Nat) :
    ∀ (n : Nat) (s : WiFiSetup σ), Serving s →
      (∀ t, updates P C fuel n s = Except.ok t → Serving t) ∧
      (SmallRequests P → ScansComplete P → 256 ≤ fuel →
        ∃ t, updates P C fuel n s = Except.ok t) := by
  intro n
  induction n with
  | zero =>
    intro s hs
    exact ⟨fun t ht => by rw [← Except.ok.inj ht]; exact hs, fun _ _ _ => ⟨s, rfl⟩⟩
  | succ n ih =>
    intro s hs
    obtain ⟨u1, u2⟩ := update_serving P C hn fuel s hs
    constructor
    · intro t ht
      simp only [updates] at ht
      split at ht
      · exact absurd ht (by simp)
      · rename_i s1 h1
        exact (ih s1 (u1 s1 h1)).1 t ht
    · intro hsm hsc hf
      obtain ⟨s1, h1⟩ := u2 hsm hsc hf
      obtain ⟨t, ht⟩ := (ih s1 (u1 s1 h1)).2 hsm hsc hf
      exact ⟨t, by simp only [updates, h1, ht]⟩

/-- With an empty ssid or a driver that never connects, `start(false)` returns with the
portal serving. -/
theorem start_false_serving (P : Platform σ) (C : Config) (fuel : Nat) (s : WiFiSetup σ)
    (h : s.ssid = "" ∨ NeverConnected P) :
    ∃ s1, start P C fuel false s = Except.ok s1 ∧ Serving s1 := by
  unfold start
  simp only []
  generalize hs0 : call (P.mode WiFiMode.WIFI_STA) (Event.mode WiFiMode.WIFI_STA)
      (call (P.persistent false) (Event.persistent false)
        (call (P.hostname s.hostname) (Event.hostname s.hostname) s)) = s0
  have hss : s0.ssid = s.ssid := by rw [← hs0]; rfl
  by_cases g1 : s0.ssid ≠ ""
  · rw [if_pos g1]
    have hn : NeverConnected P := h.resolve_left (fun h0 => g1 (hss.trans h0))
    rw [if_neg (connectWifi_failed P hn.2 hn.1 _ _ _), startLoop_false]
    obtain ⟨p1, p2, p3, _⟩ := startConfigPortal_spec P
      (connectWifi P s0.ssid s0.password s0).2.hostname (connectWifi P s0.ssid s0.password s0).2
    exact ⟨_, rfl, p1, p2, p3⟩
  · rw [if_neg g1, startLoop_false]
    obtain ⟨p1, p2, p3, _⟩ := startConfigPortal_spec P s0.hostname s0
    exact ⟨_, rfl, p1, p2, p3⟩

/-- The example driver that always reports disconnected never connects. -/
theorem neverConnected_fixed : NeverConnected (fixedPlatform 6 6) :=
  ⟨fun _ => (by decide : (6 : Nat) ≠ 3), fun _ => (by decide : (6 : Nat) ≠ 3)⟩

/-- C2, as amended: when the stored ssid is empty or the driver never reports Connected,
`start(false)` returns with the portal started (HTTP server and DNS responder present,
connected flag false).  When the driver never reports Connected, every following run of
`update()` calls that returns leaves the portal present and the connected flag false,
whatever the clients request, and the run does return when no request carries 256 or more
arguments and no scan returns a negative count. -/
theorem start_false_portal_stays (P : Platform σ) (C : Config) (s : WiFiSetup σ)
    (fuel : Nat) :
    (s.ssid = "" ∨ NeverConnected P →
      ∃ s1, start P C fuel false s = Except.ok s1 ∧ Serving s1) ∧
    (NeverConnected P →
      ∃ s1, start P C fuel false s = Except.ok s1 ∧ Serving s1 ∧
        ∀ (n fuel2 : Nat),
          (∀ s2, updates P C fuel2 n s1 = Except.ok s2 → Serving s2) ∧
          (SmallRequests P → ScansComplete P → 256 ≤ fuel2 →
            ∃ s2, updates P C fuel2 n s1 = Except.ok s2)) := by
  refine ⟨fun h => start_false_serving P C fuel s h, fun hn => ?_⟩
  obtain ⟨s1, e1, h1⟩ := start_false_serving P C fuel s (Or.inr hn)
  exact ⟨s1, e1, h1, fun n fuel2 => updates_serving P C hn fuel2 n s1 h1⟩

/-- C2 on a driver that always reports disconnected while a client asks for the portal
page at every `update()`: the scan finds three networks, each `update()` makes its retry
and sends the page, and the portal stays. -/
theorem start_false_portal_stays_witness :
    NeverConnected visitorPlatform ∧ SmallRequests visitorPlatform ∧
    ScansComplete visitorPlatform ∧
    (∀ e, (visitorPlatform.nextClient e).1 = some rootRequest) ∧
    (∃ s1, start visitorPlatform sampleConfig 0 false
        (new "home" "secret" "esp" idleCallback 5000) = Except.ok s1 ∧ Serving s1 ∧
      ∀ (n fuel2 : Nat),
        (∀ s2, updates visitorPlatform sampleConfig fuel2 n s1 = Except.ok s2 → Serving s2) ∧
        (SmallRequests visitorPlatform → ScansComplete visitorPlatform → 256 ≤ fuel2 →
          ∃ s2, updates visitorPlatform sampleConfig fuel2 n s1 = Except.ok s2)) ∧
    ∃ s1 s2, start visitorPlatform sampleConfig 0 false
        (new "home" "secret" "esp" idleCallback 5000) = Except.ok s1 ∧
      updates visitorPlatform sampleConfig 0 2 s1 = Except.ok s2 ∧
      (since s1 s2).filter (fun ev => isSend ev || isWait ev) =
        [Event.waitForConnectResult 6, Event.send 200 "text/html" "",
         Event.waitForConnectResult 6, Event.send 200 "text/html" ""] :=
  ⟨⟨fun _ => (by decide : (6 : Nat) ≠ 3), fun _ => (by decide : (6 : Nat) ≠ 3)⟩,
    fun _ req h => by rw [← Option.some.inj h]; decide,
    fun _ => (by decide : (0 : Int) ≤ 3),
    fun _ => rfl,
    (start_false_portal_stays visitorPlatform sampleConfig
      (new "home" "secret" "esp" idleCallback 5000) 0).2
      ⟨fun _ => (by decide : (6 : Nat) ≠ 3), fun _ => (by decide : (6 : Nat) ≠ 3)⟩,
    _, _, rfl, by with_unfolding_all rfl, by with_unfolding_all decide⟩

/-- C2 fails as stated: with an empty stored ssid and a driver whose status read reports
Connected, `start(false)` starts the portal, and the first `update()` after it, with no
form submitted and no setter called, sets the connected flag and tears the portal down. -/
theorem portal_lost_with_empty_ssid :
    (new "" "" "esp" idleCallback 5000 : WiFiSetup Nat).ssid = "" ∧
    (∀ e, ((fixedPlatform 3 3).nextClient e).1 = none) ∧
    ∃ s1 s2, start (fixedPlatform 3 3) sampleConfig 0 false
        (new "" "" "esp" idleCallback 5000) = Except.ok s1 ∧
      s1.server.isSome = true ∧ s1.dns.isSome = true ∧ s1.connected = false ∧
      update (fixedPlatform 3 3) sampleConfig 0 s1 = Except.ok s2 ∧
      s2.server = none ∧ s2.dns = none ∧ s2.connected = true :=
  ⟨rfl, fun _ => rfl, _, _, rfl, rfl, rfl, rfl, rfl, rfl, rfl, rfl⟩

/-- C10 fails as stated: `startConfigPortal` called on a supervisor whose portal is active
makes all the calls of a first start again (access point, new DNS responder, new HTTP
server, handler bindings), and it clears a connected flag that was set. -/
theorem startConfigPortal_twice_restarts :
    (startConfigPortal (fixedPlatform 6 6) "esp"
      (new "" "" "esp" idleCallback 0)).server.isSome = true ∧
    (startConfigPortal (fixedPlatform 6 6) "esp"
      (new "" "" "esp" idleCallback 0)).dns.isSome = true ∧
    since (startConfigPortal (fixedPlatform 6 6) "esp" (new "" "" "esp" idleCallback 0))
      (startConfigPortal (fixedPlatform 6 6) "esp"
        (startConfigPortal (fixedPlatform 6 6) "esp" (new "" "" "esp" idleCallback 0)))
      = portalEvents "esp" 0x0104A8C0 ∧
    (startConfigPortal (fixedPlatform 6 6) "esp"
      { startConfigPortal (fixedPlatform 6 6) "esp" (new "" "" "esp" idleCallback 0) with
        connected := true }).connected = false := by
  decide

/-- C10, as amended: `startConfigPortal` does the same in every state, portal active or
not.  It makes the calls of a portal start (radio mode, new DNS responder, new HTTP server,
access point, handler bindings), leaves exactly the server and the DNS responder of a first
start with each handler bound once, clears the connected flag, and keeps ssid, password,
hostname and lastUpdate. -/
theorem startConfigPortal_replaces_portal (P : Platform σ) (apName : String)
    (s : WiFiSetup σ) :
    (startConfigPortal P apName s).server = some portalServer ∧
    (startConfigPortal P apName s).dns = some { started := true } ∧
    (startConfigPortal P apName s).connected = false ∧
    since s (startConfigPortal P apName s) =
      portalEvents apName (P.softAPIP (P.softAP apName (P.mode WiFiMode.WIFI_AP_STA s.env))).1 ∧
    (startConfigPortal P apName s).ssid = s.ssid ∧
    (startConfigPortal P apName s).password = s.password ∧
    (startConfigPortal P apName s).hostname = s.hostname ∧
    (startConfigPortal P apName s).lastUpdate = s.lastUpdate := by
  obtain ⟨h1, h2, h3, h4, _, h6, h7, h8, h9⟩ := startConfigPortal_spec P apName s
  refine ⟨h1, h2, h3, ?_, h6, h7, h8, h9⟩
  unfold since
  rw [h4, List.drop_left]

/-- The calls added between two states, read off the trace. -/
theorem since_of_trace {s t : WiFiSetup σ} {evs : List Event} (h : t.trace = s.trace ++ evs) :
    since s t = evs := by
  unfold since
  rw [h, List.drop_left]

/-- Among the calls of a connect attempt there is no response and no callback. -/
theorem filter_connectEvents (evs : List Event)
    (h : ∀ ev, ev ∈ evs → isConnectEvent ev = true) :
    evs.filter isSend = [] ∧ evs.filter isChangeCallback = [] := by
  constructor
  · rw [List.filter_eq_nil_iff]
    intro ev hev
    have := h ev hev
    cases ev <;> simp_all [isConnectEvent, isSend]
  · rw [List.filter_eq_nil_iff]
    intro ev hev
    have := h ev hev
    cases ev <;> simp_all [isConnectEvent, isChangeCallback]

/-- The run of `handleWifiSave` on an accepted submission. -/
theorem handleWifiSave_accept_run (P : Platform σ) (req : Request) (s : WiFiSetup σ)
    (hne : req.arg "ssid" ≠ "")
    (hc : (connectWifi P (req.arg "ssid") (req.arg "password") s).1 = WL_CONNECTED) :
    handleWifiSave P req s =
      { call (s.changeCallback (req.arg "ssid") (req.arg "password"))
          (Event.changeCallback (req.arg "ssid") (req.arg "password"))
          (emit (connectWifi P (req.arg "ssid") (req.arg "password") s).2
            (Event.send 200 "" "")) with connected := true } ∧
    since s (handleWifiSave P req s) =
      since s (connectWifi P (req.arg "ssid") (req.arg "password") s).2 ++
        [Event.send 200 "" "", Event.changeCallback (req.arg "ssid") (req.arg "password")] := by
  obtain ⟨f1, f2, f3, f4, f5, f6, f7, f8⟩ := connectWifi_fields P (req.arg "ssid")
    (req.arg "password") s
  obtain ⟨evs, ht, hev, _⟩ := connectWifi_trace P (req.arg "ssid") (req.arg "password") s
  have hrun : handleWifiSave P req s =
      { call (s.changeCallback (req.arg "ssid") (req.arg "password"))
          (Event.changeCallback (req.arg "ssid") (req.arg "password"))
          (emit (connectWifi P (req.arg "ssid") (req.arg "password") s).2
            (Event.send 200 "" "")) with connected := true } := by
    unfold handleWifiSave
    simp only []
    rw [if_neg hne, if_pos hc]
    show _ = _
    simp only [emit, call, f4]
  refine ⟨hrun, ?_⟩
  have htr : (handleWifiSave P req s).trace = s.trace ++ (evs ++ [Event.send 200 "" "",
      Event.changeCallback (req.arg "ssid") (req.arg "password")]) := by
    rw [hrun]
    simp [call, emit, ht]
  rw [since_of_trace htr, since_of_trace ht]

/-- The run of `handleWifiSave` on a rejected submission. -/
theorem handleWifiSave_reject_run (P : Platform σ) (req : Request) (s : WiFiSetup σ)
    (h : req.arg "ssid" = "" ∨
      (connectWifi P (req.arg "ssid") (req.arg "password") s).1 ≠ WL_CONNECTED) :
    handleWifiSave P req s =
      emit (emit (if req.arg "ssid" = "" then s
          else (connectWifi P (req.arg "ssid") (req.arg "password") s).2)
        (Event.sendHeader "Content-Length"
          (toString (rejectionBody (req.arg "ssid")).utf8ByteSize)))
        (Event.send 400 "text" (rejectionBody (req.arg "ssid"))) ∧
    since s (handleWifiSave P req s) =
      since s (if req.arg "ssid" = "" then s
          else (connectWifi P (req.arg "ssid") (req.arg "password") s).2) ++
        [Event.sendHeader "Content-Length"
          (toString (rejectionBody (req.arg "ssid")).utf8ByteSize),
         Event.send 400 "text" (rejectionBody (req.arg "ssid"))] := by
  obtain ⟨evs, ht, hev, _⟩ := connectWifi_trace P (req.arg "ssid") (req.arg "password") s
  have hrun : handleWifiSave P req s =
      emit (emit (if req.arg "ssid" = "" then s
          else (connectWifi P (req.arg "ssid") (req.arg "password") s).2)
        (Event.sendHeader "Content-Length"
          (toString (rejectionBody (req.arg "ssid")).utf8ByteSize)))
        (Event.send 400 "text" (rejectionBody (req.arg "ssid"))) := by
    unfold handleWifiSave
    simp only []
    by_cases he : req.arg "ssid" = ""
    · rw [if_pos he, if_neg (show ¬ WL_DISCONNECTED = WL_CONNECTED by decide), if_pos he]
      rfl
    · rw [if_neg he, if_neg (h.resolve_left he), if_neg he]
      rfl
  refine ⟨hrun, ?_⟩
  rw [hrun]
  by_cases he : req.arg "ssid" = ""
  · simp only [if_pos he]
    have e0 : since s s = [] := since_of_trace (List.append_nil _).symm
    rw [e0]
    exact since_of_trace (by simp [emit])
  · simp only [if_neg he]
    rw [since_of_trace ht]
    exact since_of_trace (by simp [emit, ht])

/-- C4: for a submission with a non-empty ssid whose connect attempt returns Connected,
`handleWifiSave` makes the calls of the connect attempt, then sends status 200, then invokes
the change callback once with the submitted ssid and password, and sets the connected
flag.  The state in which the callback runs has the server and the DNS responder the
handler was entered with. -/
theorem handleWifiSave_accepts (P : Platform σ) (req : Request) (s : WiFiSetup σ)
    (hne : req.arg "ssid" ≠ "")
    (hc : (connectWifi P (req.arg "ssid") (req.arg "password") s).1 = WL_CONNECTED) :
    handleWifiSave P req s =
      { call (s.changeCallback (req.arg "ssid") (req.arg "password"))
          (Event.changeCallback (req.arg "ssid") (req.arg "password"))
          (emit (connectWifi P (req.arg "ssid") (req.arg "password") s).2
            (Event.send 200 "" "")) with connected := true } ∧
    (emit (connectWifi P (req.arg "ssid") (req.arg "password") s).2
      (Event.send 200 "" "")).server = s.server ∧
    (emit (connectWifi P (req.arg "ssid") (req.arg "password") s).2
      (Event.send 200 "" "")).dns = s.dns ∧
    since s (handleWifiSave P req s) =
      since s (connectWifi P (req.arg "ssid") (req.arg "password") s).2 ++
        [Event.send 200 "" "", Event.changeCallback (req.arg "ssid") (req.arg "password")] ∧
    (∀ ev, ev ∈ since s (connectWifi P (req.arg "ssid") (req.arg "password") s).2 →
      isConnectEvent ev = true) ∧
    (since s (handleWifiSave P req s)).filter isSend = [Event.send 200 "" ""] ∧
    (since s (handleWifiSave P req s)).filter isChangeCallback =
      [Event.changeCallback (req.arg "ssid") (req.arg "password")] ∧
    (handleWifiSave P req s).connected = true ∧
    (handleWifiSave P req s).server = s.server ∧
    (handleWifiSave P req s).dns = s.dns := by
  obtain ⟨f1, f2, f3, f4, f5, f6, f7, f8⟩ := connectWifi_fields P (req.arg "ssid")
    (req.arg "password") s
  obtain ⟨evs, ht, hev, _⟩ := connectWifi_trace P (req.arg "ssid") (req.arg "password") s
  obtain ⟨g1, g2⟩ := filter_connectEvents evs hev
  obtain ⟨hrun, hsince⟩ := handleWifiSave_accept_run P req s hne hc
  have hs2 := since_of_trace ht
  refine ⟨hrun, f8, f7, hsince, ?_, ?_, ?_, ?_, ?_, ?_⟩
  · rw [hs2]
    exact hev
  · rw [hsince, hs2, List.filter_append, g1]
    rfl
  · rw [hsince, hs2, List.filter_append, g2]
    rfl
  · rw [hrun]
  · rw [hrun]
    exact f8
  · rw [hrun]
    exact f7

/-- C4 on the submission of "cafe" to a supervisor whose stored network is "old". -/
theorem handleWifiSave_accepts_witness :
    cafeRequest.arg "ssid" ≠ "" ∧
    (connectWifi (fixedPlatform 6 3) (cafeRequest.arg "ssid") (cafeRequest.arg "password")
      servingState).1 = WL_CONNECTED ∧
    servingState.ssid = "old" ∧
    (since servingState (handleWifiSave (fixedPlatform 6 3) cafeRequest servingState)).filter
      isChangeCallback = [Event.changeCallback "cafe" "latte"] ∧
    (handleWifiSave (fixedPlatform 6 3) cafeRequest servingState).connected = true :=
  ⟨by decide, by decide, rfl,
    (handleWifiSave_accepts (fixedPlatform 6 3) cafeRequest servingState (by decide)
      (by decide)).2.2.2.2.2.2.1,
    (handleWifiSave_accepts (fixedPlatform 6 3) cafeRequest servingState (by decide)
      (by decide)).2.2.2.2.2.2.2.1⟩

/-- C5: `handleWifiSave` answers 400 with the body naming the submitted ssid exactly when
the submitted ssid is empty or the connect attempt returns a status other than Connected;
on a rejection it does not invoke the change callback and changes no member, the connected
flag included; with an empty ssid it makes no call to the driver; and in every case it
waits for at most one connect result and begins at most one association. -/
theorem handleWifiSave_rejects_iff (P : Platform σ) (req : Request) (s : WiFiSetup σ) :
    ((since s (handleWifiSave P req s)).filter isSend =
        [Event.send 400 "text" (rejectionBody (req.arg "ssid"))] ↔
      (req.arg "ssid" = "" ∨
        (connectWifi P (req.arg "ssid") (req.arg "password") s).1 ≠ WL_CONNECTED)) ∧
    ((req.arg "ssid" = "" ∨
        (connectWifi P (req.arg "ssid") (req.arg "password") s).1 ≠ WL_CONNECTED) →
      (since s (handleWifiSave P req s)).filter isChangeCallback = [] ∧
      (handleWifiSave P req s).connected = s.connected ∧
      SameMembers s (handleWifiSave P req s)) ∧
    (req.arg "ssid" = "" →
      since s (handleWifiSave P req s) =
        [Event.sendHeader "Content-Length" (toString (rejectionBody "").utf8ByteSize),
         Event.send 400 "text" (rejectionBody "")] ∧
      (handleWifiSave P req s).env = s.env) ∧
    (since s (handleWifiSave P req s)).countP isWait ≤ 1 ∧
    (since s (handleWifiSave P req s)).countP isBegin ≤ 1 := by
  obtain ⟨evs, ht, hev, hw, hb, _⟩ := connectWifi_trace P (req.arg "ssid")
    (req.arg "password") s
  obtain ⟨g1, g2⟩ := filter_connectEvents evs hev
  have hs2 := since_of_trace ht
  have e0 : since s s = [] := since_of_trace (List.append_nil _).symm
  by_cases hr : req.arg "ssid" = "" ∨
      (connectWifi P (req.arg "ssid") (req.arg "password") s).1 ≠ WL_CONNECTED
  · obtain ⟨hrun, hsince⟩ := handleWifiSave_reject_run P req s hr
    have hbase : since s (if req.arg "ssid" = "" then s
        else (connectWifi P (req.arg "ssid") (req.arg "password") s).2) =
        if req.arg "ssid" = "" then [] else evs := by
      split_ifs
      · exact e0
      · exact hs2
    rw [hbase] at hsince
    have hsame := sameMembers_handleWifiSave_rejected P req s hr
    refine ⟨⟨fun _ => hr, fun _ => ?_⟩, fun _ => ⟨?_, hsame.2.2.2.2.1, hsame⟩,
      fun he => ⟨?_, ?_⟩, ?_, ?_⟩
    · rw [hsince, List.filter_append]
      split_ifs
      · rfl
      · rw [g1]
        rfl
    · rw [hsince, List.filter_append]
      split_ifs
      · rfl
      · rw [g2]
        rfl
    · rw [hsince, if_pos he, he]
      rfl
    · rw [hrun, if_pos he]
      rfl
    · rw [hsince, List.countP_append]
      split_ifs
      · simp [isWait]
      · simpa [isWait] using hw
    · rw [hsince, List.countP_append]
      split_ifs
      · simp [isBegin]
      · simpa [isBegin] using hb
  · have hne : req.arg "ssid" ≠ "" := fun h => hr (Or.inl h)
    have hc : (connectWifi P (req.arg "ssid") (req.arg "password") s).1 = WL_CONNECTED := by
      by_contra h
      exact hr (Or.inr h)
    obtain ⟨_, hsince⟩ := handleWifiSave_accept_run P req s hne hc
    rw [hs2] at hsince
    refine ⟨⟨fun h => ?_, fun h => absurd h hr⟩, fun h => absurd h hr,
      fun he => absurd he hne, ?_, ?_⟩
    · rw [hsince, List.filter_append, g1] at h
      exact absurd h (by simp [isSend, List.filter])
    · rw [hsince, List.countP_append]
      simpa [isWait] using hw
    · rw [hsince, List.countP_append]
      simpa [isBegin] using hb

/-- The test of `isIp` on one character. -/
theorem ipChar_iff (c : Char) : IpChar c ↔ ¬ (c ≠ '.' ∧ (c < '0' ∨ c > '9')) := by
  unfold IpChar
  constructor
  · rintro (h | ⟨h1, h2⟩)
    · exact fun g => g.1 h
    · rintro ⟨_, g | g⟩
      · exact absurd h1 (not_le.2 g)
      · exact absurd h2 (not_le.2 g)
  · intro h
    by_cases hd : c = '.'
    · exact Or.inl hd
    · right
      constructor
      · by_contra g
        exact h ⟨hd, Or.inl (not_le.1 g)⟩
      · by_contra g
        exact h ⟨hd, Or.inr (not_le.1 g)⟩

/-- The loop of `isIp` accepts exactly the lists of digits and dots. -/
theorem isIpLoop_iff (cs : List Char) : isIpLoop cs = true ↔ ∀ c, c ∈ cs → IpChar c := by
  induction cs with
  | nil => simp [isIpLoop]
  | cons c cs ih =>
    simp only [isIpLoop, List.mem_cons, forall_eq_or_imp]
    by_cases h : c ≠ '.' ∧ (c < '0' ∨ c > '9')
    · rw [if_pos h]
      constructor
      · intro g
        exact absurd g (by simp)
      · rintro ⟨g, _⟩
        exact absurd h ((ipChar_iff c).1 g)
    · rw [if_neg h, ih]
      exact ⟨fun g => ⟨(ipChar_iff c).2 h, g⟩, fun g => g.2⟩

/-- The function `isIp` accepts exactly the strings of digits and dots. -/
theorem isIp_iff (str : String) : isIp str = true ↔ ∀ c, c ∈ str.data → IpChar c :=
  isIpLoop_iff str.data


/-- With 256 or more arguments the argument loop does not end: its counter stays below 256. -/
theorem argsLoop_hangs (req : Request) (h : 256 ≤ req.args.length) :
    ∀ (fuel i : Nat) (message : String), i < 256 →
      argsLoop req fuel i message = Except.error Fault.fuel := by
  intro fuel
  induction fuel with
  | zero =>
    intro i message hi
    simp only [argsLoop]
    rw [if_pos (by omega)]
  | succ fuel ih =>
    intro i message hi
    simp only [argsLoop]
    rw [if_pos (by omega)]
    exact ih _ _ (Nat.mod_lt _ (by omega))

/-- C3 at a failing input: for a request with 256 arguments whose Host header is a
literal address, `captivePortal` returns false without sending anything, and
`handleNotFound` never gets to send the 404: its `uint8_t` loop counter wraps to 0 before
it can reach the argument count, whatever the fuel. -/
theorem handleNotFound_hangs_on_256_arguments (fuel : Nat) (s : WiFiSetup σ) :
    (∀ c, c ∈ bigRequest.hostHeader.data → IpChar c) ∧
    bigRequest.args.length = 256 ∧
    captivePortal bigRequest s = (false, s) ∧
    handleNotFound fuel bigRequest s = Except.error Fault.fuel := by
  have hip : isIp bigRequest.hostHeader = true := by decide
  have hcp : captivePortal bigRequest s = (false, s) := by
    unfold captivePortal
    rw [hip]
    rfl
  have hlen : bigRequest.args.length = 256 := List.length_replicate _ _
  refine ⟨(isIp_iff _).1 hip, hlen, hcp, ?_⟩
  unfold handleNotFound
  simp only []
  rw [hcp, argsLoop_hangs bigRequest (Nat.le_of_eq hlen.symm) fuel 0 _ (by omega)]
  rfl

/-- The part of C3 on host names: a Host header with a character that is neither digit nor
dot is answered by the redirect alone, with the Location of the local address, an empty body
and the client stopped; the not-found handler returns right after it. -/
theorem captivePortal_redirects (req : Request) (s : WiFiSetup σ)
    (h : ∃ c, c ∈ req.hostHeader.data ∧ ¬ IpChar c) :
    (captivePortal req s).1 = true ∧
    since s (captivePortal req s).2 =
      [Event.sendHeader "Location" ("http://" ++ toStringIp req.localIP),
       Event.send 302 "text/plain" "", Event.clientStop] ∧
    ∀ fuel, handleNotFound fuel req s = Except.ok (captivePortal req s).2 := by
  have hip : isIp req.hostHeader = false := by
    rw [← Bool.not_eq_true, isIp_iff]
    obtain ⟨c, hc, hn⟩ := h
    exact fun g => hn (g c hc)
  have h1 : (captivePortal req s).1 = true := by
    unfold captivePortal
    rw [hip]
    rfl
  refine ⟨h1, ?_, fun fuel => ?_⟩
  · unfold captivePortal
    rw [hip]
    exact since_of_trace (by simp [emit])
  · unfold handleNotFound
    simp only []
    rw [if_pos h1]

/-- The part of C3 on literal addresses, for requests with fewer than 256 arguments: nothing
is sent by `captivePortal`, and the handler sends the three cache headers, the length and
the 404 diagnostic. -/
theorem handleNotFound_sends_404 (req : Request) (s : WiFiSetup σ)
    (h : ∀ c, c ∈ req.hostHeader.data → IpChar c) (hsmall : req.args.length < 256)
    (fuel : Nat) (hfuel : 256 ≤ fuel) :
    captivePortal req s = (false, s) ∧
    ∃ t message, handleNotFound fuel req s = Except.ok t ∧
      since s t =
        [Event.sendHeader "Cache-Control" "no-cache, no-store, must-revalidate",
         Event.sendHeader "Pragma" "no-cache", Event.sendHeader "Expires" "-1",
         Event.sendHeader "Content-Length" (toString message.utf8ByteSize),
         Event.send 404 "text/plain" message] := by
  have hip : isIp req.hostHeader = true := (isIp_iff _).2 h
  have hcp : captivePortal req s = (false, s) := by
    unfold captivePortal
    rw [hip]
    rfl
  refine ⟨hcp, ?_⟩
  obtain ⟨m, hm⟩ := argsLoop_ok req hsmall fuel 0 (notFoundHead req) (Nat.zero_le _)
    (by omega)
  unfold handleNotFound
  simp only []
  rw [hcp, hm]
  exact ⟨_, m, rfl, since_of_trace (by simp [emit])⟩

/-! ## The handlers on concrete requests -/

/-- The captive rule on the Host header "example.com": the redirect to the local address,
an empty body, the client stopped, and nothing else. -/
theorem handleNotFound_example_com :
    (handleNotFound 256 nameRequest servingState).map (since servingState) =
      Except.ok [Event.sendHeader "Location" "http://192.168.4.1",
        Event.send 302 "text/plain" "", Event.clientStop] := by
  rfl

/-- The captive rule on the Host header "192.168.4.1": no redirect, the 404 diagnostic. -/
theorem handleNotFound_literal_address :
    (handleNotFound 256 addressRequest servingState).map (since servingState) =
      Except.ok [Event.sendHeader "Cache-Control" "no-cache, no-store, must-revalidate",
        Event.sendHeader "Pragma" "no-cache", Event.sendHeader "Expires" "-1",
        Event.sendHeader "Content-Length" "61",
        Event.send 404 "text/plain"
          "File Not Found\n\nURI: /missing\nMethod: GET\nArguments: 1\n q: 1\n"] := by
  rfl

/-- A submission with an empty ssid: the 400 answer and no call to the driver. -/
theorem handleWifiSave_empty_ssid :
    since servingState (handleWifiSave (fixedPlatform 6 3) emptyRequest servingState) =
      [Event.sendHeader "Content-Length" "32",
       Event.send 400 "text" "Could not connect to network \"\"."] := by
  decide

/-! ## Literal addresses -/

/-- C17 fails as stated: `isIp` is true on the empty string, on "." and on "1..2", none of
which is a non-empty dotted sequence of digits, and `captivePortal` sends no redirect for
these Host headers. -/
theorem isIp_accepts_empty_and_double_dots :
    isIp "" = true ∧ isDottedDecimal "" = false ∧
    isIp "." = true ∧ isDottedDecimal "." = false ∧
    isIp "1..2" = true ∧ isDottedDecimal "1..2" = false ∧
    isDottedDecimal "192.168.4.1" = true ∧
    captivePortal (hostRequest "") servingState = (false, servingState) ∧
    captivePortal (hostRequest ".") servingState = (false, servingState) ∧
    captivePortal (hostRequest "1..2") servingState = (false, servingState) := by
  refine ⟨by decide, by decide, by decide, by decide, by decide, by decide, by decide,
    rfl, rfl, rfl⟩

/-- A dotted sequence of digits has only digits and dots. -/
theorem dottedDigitsFrom_ipChars (cs : List Char) :
    ∀ b, dottedDigitsFrom b cs = true → ∀ c, c ∈ cs → IpChar c := by
  induction cs with
  | nil => intro _ _ c hc; exact absurd hc (List.not_mem_nil c)
  | cons d ds ih =>
    intro b h c hc
    simp only [dottedDigitsFrom] at h
    rw [List.mem_cons] at hc
    split_ifs at h with h1 h2
    · rcases hc with hc | hc
      · rw [hc]; exact Or.inr h1
      · exact ih true h c hc
    · rw [Bool.and_eq_true] at h
      rcases hc with hc | hc
      · rw [hc]; exact Or.inl h2
      · exact ih false h.2 c hc

/-- C17, as amended: `isIp` is true exactly on the strings whose every character is a
decimal digit or a dot, so it is true on every non-empty dotted sequence of digits;
`captivePortal` redirects with a 302 to the local address exactly the Host headers that
contain some other character, and sends nothing for the rest. -/
theorem isIp_iff_digits_and_dots_only (req : Request) (s : WiFiSetup σ) :
    (isIp req.hostHeader = true ↔ ∀ c, c ∈ req.hostHeader.data → IpChar c) ∧
    (isDottedDecimal req.hostHeader = true → isIp req.hostHeader = true) ∧
    ((captivePortal req s).1 = true ↔ ∃ c, c ∈ req.hostHeader.data ∧ ¬ IpChar c) ∧
    ((captivePortal req s).1 = true →
      since s (captivePortal req s).2 =
        [Event.sendHeader "Location" ("http://" ++ toStringIp req.localIP),
         Event.send 302 "text/plain" "", Event.clientStop]) ∧
    ((captivePortal req s).1 = false → (captivePortal req s).2 = s) := by
  have hiff := isIp_iff req.hostHeader
  have hcp : (captivePortal req s).1 = !isIp req.hostHeader := by
    unfold captivePortal
    cases isIp req.hostHeader <;> rfl
  refine ⟨hiff, fun h => hiff.2 (dottedDigitsFrom_ipChars _ false h), ?_, ?_, ?_⟩
  · rw [hcp, Bool.not_eq_true', ← Bool.not_eq_true, hiff]
    push_neg
    rfl
  · intro h
    rw [hcp, Bool.not_eq_true'] at h
    unfold captivePortal
    rw [h]
    exact since_of_trace (by simp [emit])
  · intro h
    rw [hcp, Bool.not_eq_false'] at h
    unfold captivePortal
    rw [h]
    rfl

/-! ## The dotted form of an address -/

/-- The character of a decimal digit value is a digit. -/
theorem digitChar_ipChar (n : Nat) (h : n < 10) : IpChar (Nat.digitChar n) := by
  interval_cases n <;> exact Or.inr (by decide)

/-- The decimal digits of a number are digits. -/
theorem toDigitsCore_ipChars (fuel : Nat) :
    ∀ (n : Nat) (ds : List Char), (∀ c, c ∈ ds → IpChar c) →
      ∀ c, c ∈ Nat.toDigitsCore 10 fuel n ds → IpChar c := by
  induction fuel with
  | zero =>
    intro n ds hds c hc
    exact hds c hc
  | succ fuel ih =>
    intro n ds hds c hc
    simp only [Nat.toDigitsCore] at hc
    have hd : ∀ c, c ∈ Nat.digitChar (n % 10) :: ds → IpChar c := by
      intro c hc
      rw [List.mem_cons] at hc
      rcases hc with hc | hc
      · rw [hc]
        exact digitChar_ipChar _ (Nat.mod_lt _ (by decide))
      · exact hds c hc
    split_ifs at hc
    · exact hd c hc
    · exact ih _ _ hd c hc

/-- The decimal form of a number has only digits. -/
theorem toString_nat_ipChars (n : Nat) : ∀ c, c ∈ (toString n).data → IpChar c := by
  intro c hc
  have e : (toString n).data = Nat.toDigits 10 n := rfl
  rw [e] at hc
  exact toDigitsCore_ipChars _ _ [] (fun c h => absurd h (List.not_mem_nil c)) c hc

/-- The loop of `toStringIp` written out. -/
theorem toStringIp_eq (ip : Nat) :
    toStringIp ip =
      toString ((ip >>> 0) &&& 0xFF) ++ "." ++ toString ((ip >>> 8) &&& 0xFF) ++ "." ++
        toString ((ip >>> 16) &&& 0xFF) ++ "." ++ toString ((ip >>> 24) &&& 0xFF) := by
  simp [toStringIp, List.range, List.range.loop, String.append_assoc]

/-- The dotted form of an address has only digits and dots. -/
theorem isIp_toStringIp (ip : Nat) : isIp (toStringIp ip) = true := by
  rw [isIp_iff, toStringIp_eq]
  intro c hc
  simp only [String.data_append, List.mem_append] at hc
  rcases hc with (((((hc | hc) | hc) | hc) | hc) | hc) | hc
  · exact toString_nat_ipChars _ c hc
  · have : c = '.' := by simpa using hc
    exact Or.inl this
  · exact toString_nat_ipChars _ c hc
  · have : c = '.' := by simpa using hc
    exact Or.inl this
  · exact toString_nat_ipChars _ c hc
  · have : c = '.' := by simpa using hc
    exact Or.inl this
  · exact toString_nat_ipChars _ c hc

/-- C18: for every address `ip`, `toStringIp ip` is the decimal forms of the octets `(ip >>
0) & 0xFF`, `(ip >> 8) & 0xFF`, `(ip >> 16) & 0xFF`, `(ip >> 24) & 0xFF` joined by single
dots, `isIp` is true on it, and for a request whose Host header is the host part of the
Location `http://` followed by `toStringIp ip`, `captivePortal` returns false and sends
nothing. -/
theorem toStringIp_not_redirected (ip : Nat) :
    toStringIp ip =
      toString ((ip >>> 0) &&& 0xFF) ++ "." ++ toString ((ip >>> 8) &&& 0xFF) ++ "." ++
        toString ((ip >>> 16) &&& 0xFF) ++ "." ++ toString ((ip >>> 24) &&& 0xFF) ∧
    isIp (toStringIp ip) = true ∧
    ∀ (req : Request) (s : WiFiSetup σ),
      "http://" ++ req.hostHeader = "http://" ++ toStringIp ip →
        captivePortal req s = (false, s) := by
  refine ⟨toStringIp_eq ip, isIp_toStringIp ip, fun req s h => ?_⟩
  have hh : req.hostHeader = toStringIp ip := by
    have := congrArg String.data h
    simp only [String.data_append, List.append_cancel_left_eq] at this
    exact String.ext this
  unfold captivePortal
  rw [hh, isIp_toStringIp]
  rfl

/-! ## Reachable states -/

/-- Every state has its own stored configuration. -/
theorem SameConfig.same (s : WiFiSetup σ) : SameConfig s s := ⟨rfl, rfl, rfl, rfl⟩

/-- Keeping the stored configuration is transitive. -/
theorem SameConfig.then_same {s t u : WiFiSetup σ} (h1 : SameConfig s t) (h2 : SameConfig t u) :
    SameConfig s u :=
  ⟨h2.1.trans h1.1, h2.2.1.trans h1.2.1, h2.2.2.1.trans h1.2.2.1, h2.2.2.2.trans h1.2.2.2⟩

/-- States with the same members have the same stored configuration. -/
theorem SameMembers.sameConfig {s t : WiFiSetup σ} (h : SameMembers s t) : SameConfig s t :=
  ⟨h.1, h.2.1, h.2.2.1, h.2.2.2.1⟩

/-- States with the same members have the same responders. -/
theorem SameMembers.samePortal {s t : WiFiSetup σ} (h : SameMembers s t) : SamePortal s t :=
  ⟨h.2.2.2.2.2.2.1, h.2.2.2.2.2.2.2⟩

/-- Keeping the responders is transitive. -/
theorem SamePortal.then_portal {s t u : WiFiSetup σ} (h1 : SamePortal s t) (h2 : SamePortal t u) :
    SamePortal s u :=
  ⟨h2.1.trans h1.1, h2.2.trans h1.2⟩

/-- Responders that are kept stay paired. -/
theorem SamePortal.paired {s t : WiFiSetup σ} (h : SamePortal s t) (hs : Paired s) :
    Paired t := by
  unfold Paired
  rw [h.1, h.2]
  exact hs

/-- A form submission keeps the stored configuration, the last-update time and the
responders, whether it is accepted or rejected. -/
theorem handleWifiSave_frame (P : Platform σ) (req : Request) (s : WiFiSetup σ) :
    SameConfig s (handleWifiSave P req s) ∧ SamePortal s (handleWifiSave P req s) ∧
    (handleWifiSave P req s).lastUpdate = s.lastUpdate := by
  by_cases hr : req.arg "ssid" = "" ∨
      (connectWifi P (req.arg "ssid") (req.arg "password") s).1 ≠ WL_CONNECTED
  · have h := sameMembers_handleWifiSave_rejected P req s hr
    exact ⟨h.sameConfig, h.samePortal, h.2.2.2.2.2.1⟩
  · have hne : req.arg "ssid" ≠ "" := fun h => hr (Or.inl h)
    have hc : (connectWifi P (req.arg "ssid") (req.arg "password") s).1 = WL_CONNECTED := by
      by_contra h
      exact hr (Or.inr h)
    obtain ⟨hrun, _⟩ := handleWifiSave_accept_run P req s hne hc
    obtain ⟨f1, f2, f3, f4, f5, f6, f7, f8⟩ := connectWifi_fields P (req.arg "ssid")
      (req.arg "password") s
    rw [hrun]
    exact ⟨⟨f1, f2, f3, f4⟩, ⟨f7, f8⟩, f6⟩

/-- A handler that returns keeps the stored configuration, the last-update time and the
responders. -/
theorem runHandler_frame (P : Platform σ) (C : Config) (fuel : Nat) (h : Handler)
    (req : Request) (s t : WiFiSetup σ) (hr : runHandler P C fuel h req s = Except.ok t) :
    SameConfig s t ∧ SamePortal s t ∧ t.lastUpdate = s.lastUpdate := by
  cases h with
  | handleRoot =>
    have hm := sameMembers_handleRoot P C s t hr
    exact ⟨hm.sameConfig, hm.samePortal, hm.2.2.2.2.2.1⟩
  | handleWifiSave =>
    rw [← Except.ok.inj hr]
    exact handleWifiSave_frame P req s
  | handleNotFound =>
    have hm := sameMembers_handleNotFound fuel req s t hr
    exact ⟨hm.sameConfig, hm.samePortal, hm.2.2.2.2.2.1⟩

/-- The argument loop dereferences nothing. -/
theorem argsLoop_noNull (req : Request) :
    ∀ (fuel i : Nat) (message : String),
      argsLoop req fuel i message ≠ Except.error Fault.nullDeref := by
  intro fuel
  induction fuel with
  | zero =>
    intro i message
    simp only [argsLoop]
    split_ifs <;> simp
  | succ fuel ih =>
    intro i message
    simp only [argsLoop]
    split_ifs
    · exact ih _ _
    · simp

/-- A handler dereferences no absent responder. -/
theorem runHandler_noNull (P : Platform σ) (C : Config) (fuel : Nat) (h : Handler)
    (req : Request) (s : WiFiSetup σ) :
    runHandler P C fuel h req s ≠ Except.error Fault.nullDeref := by
  cases h with
  | handleRoot =>
    simp only [runHandler, handleRoot]
    split_ifs <;> simp
  | handleWifiSave => simp [runHandler]
  | handleNotFound =>
    simp only [runHandler, handleNotFound]
    split_ifs
    · simp
    · have := argsLoop_noNull req fuel 0 (notFoundHead req)
      split
      · rename_i f hf
        intro h
        rw [Except.error.inj h] at hf
        exact this hf
      · simp

/-- Serving a client dereferences no absent responder and keeps the stored configuration,
the last-update time and the responders. -/
theorem handleClient_frame (P : Platform σ) (C : Config) (fuel : Nat) (srv : WebServer)
    (s : WiFiSetup σ) :
    handleClient P C fuel srv s ≠ Except.error Fault.nullDeref ∧
    ∀ t, handleClient P C fuel srv s = Except.ok t →
      SameConfig s t ∧ SamePortal s t ∧ t.lastUpdate = s.lastUpdate := by
  have h1 : ∀ u t : WiFiSetup σ, u = emit { s with env := (P.nextClient s.env).2 }
      Event.serverHandleClient →
      (SameConfig u t ∧ SamePortal u t ∧ t.lastUpdate = u.lastUpdate) →
      (SameConfig s t ∧ SamePortal s t ∧ t.lastUpdate = s.lastUpdate) := by
    intro u t hu h
    subst hu
    exact h
  unfold handleClient
  simp only []
  split
  · exact ⟨by simp, fun t ht => by rw [← Except.ok.inj ht]; exact ⟨⟨rfl, rfl, rfl, rfl⟩, ⟨rfl, rfl⟩, rfl⟩⟩
  · split_ifs
    · split
      · exact ⟨runHandler_noNull _ _ _ _ _ _,
          fun t ht => h1 _ t rfl (runHandler_frame P C fuel _ _ _ t ht)⟩
      · split
        · exact ⟨runHandler_noNull _ _ _ _ _ _,
            fun t ht => h1 _ t rfl (runHandler_frame P C fuel _ _ _ t ht)⟩
        · exact ⟨by simp, fun t ht => by
            rw [← Except.ok.inj ht]; exact ⟨⟨rfl, rfl, rfl, rfl⟩, ⟨rfl, rfl⟩, rfl⟩⟩
    · exact ⟨by simp, fun t ht => by
        rw [← Except.ok.inj ht]; exact ⟨⟨rfl, rfl, rfl, rfl⟩, ⟨rfl, rfl⟩, rfl⟩⟩

/-- One pump of a portal whose responders exist: no absent responder is dereferenced, the
stored configuration and the last-update time are kept, and either the responders are
kept or they are torn down with the connected flag set. -/
theorem handleConfigPortal_frame (P : Platform σ) (C : Config) (fuel : Nat)
    (s : WiFiSetup σ) (hsrv : s.server.isSome = true) (hdns : s.dns.isSome = true) :
    handleConfigPortal P C fuel s ≠ Except.error Fault.nullDeref ∧
    ∀ t, handleConfigPortal P C fuel s = Except.ok t →
      SameConfig s t ∧ t.lastUpdate = s.lastUpdate ∧
      ((t.server = none ∧ t.dns = none ∧ t.connected = true) ∨ SamePortal s t) := by
  obtain ⟨d, hd⟩ := Option.isSome_iff_exists.1 hdns
  obtain ⟨srv, hsv⟩ := Option.isSome_iff_exists.1 hsrv
  have e1 : (call P.dnsProcessNextRequest Event.dnsProcessNextRequest s).server = some srv :=
    hsv
  unfold handleConfigPortal
  rw [hd]
  simp only []
  rw [e1]
  simp only []
  obtain ⟨hnn, hfr⟩ := handleClient_frame P C fuel srv
    (call P.dnsProcessNextRequest Event.dnsProcessNextRequest s)
  cases hc : handleClient P C fuel srv
      (call P.dnsProcessNextRequest Event.dnsProcessNextRequest s) with
  | error f =>
    simp only []
    refine ⟨fun h => hnn ?_, fun t ht => absurd ht (by simp)⟩
    rw [hc, Except.error.inj h]
  | ok s2 =>
    obtain ⟨g1, g2, g3⟩ := hfr s2 hc
    have g1s : SameConfig s s2 := g1
    have g2s : SamePortal s s2 := g2
    have g3s : s2.lastUpdate = s.lastUpdate := g3
    simp only []
    split_ifs with hcon hst
    · refine ⟨by simp, fun t ht => ?_⟩
      rw [← Except.ok.inj ht]
      exact ⟨g1s, g3s, Or.inl ⟨rfl, rfl, hcon⟩⟩
    · refine ⟨by simp, fun t ht => ?_⟩
      rw [← Except.ok.inj ht]
      exact ⟨g1s, g3s, Or.inr g2s⟩
    · refine ⟨by simp, fun t ht => ?_⟩
      rw [← Except.ok.inj ht]
      exact ⟨g1s, g3s, Or.inr g2s⟩

/-- The timer-driven retry keeps the stored configuration and the responders. -/
theorem retryStep_frame (P : Platform σ) (C : Config) (s : WiFiSetup σ) :
    SameConfig s (retryStep P C s) ∧ SamePortal s (retryStep P C s) := by
  unfold retryStep
  simp only []
  split_ifs
  · obtain ⟨f1, f2, f3, f4, f5, f6, f7, f8⟩ := connectWifi_fields P
      (readMillis P (readMillis P s).2).2.ssid (readMillis P (readMillis P s).2).2.password
      { (readMillis P (readMillis P s).2).2 with
        lastUpdate := (readMillis P (readMillis P s).2).1 }
    exact ⟨⟨f1, f2, f3, f4⟩, ⟨f7, f8⟩⟩
  · obtain ⟨f1, f2, f3, f4, f5, f6, f7, f8⟩ := connectWifi_fields P
      (readMillis P (readMillis P s).2).2.ssid (readMillis P (readMillis P s).2).2.password
      { (readMillis P (readMillis P s).2).2 with
        lastUpdate := (readMillis P (readMillis P s).2).1 }
    exact ⟨⟨f1, f2, f3, f4⟩, ⟨f7, f8⟩⟩
  · exact ⟨⟨rfl, rfl, rfl, rfl⟩, ⟨rfl, rfl⟩⟩

/-- A portal start leaves paired responders and keeps the stored configuration. -/
theorem paired_startConfigPortal (P : Platform σ) (apName : String) (s : WiFiSetup σ) :
    Paired (startConfigPortal P apName s) ∧ SameConfig s (startConfigPortal P apName s) := by
  obtain ⟨h1, h2, h3, h4, h5, h6, h7, h8, h9⟩ := startConfigPortal_spec P apName s
  refine ⟨Or.inr ⟨h1, h2⟩, h6, h7, h8, ?_⟩
  simp [startConfigPortal, serverOn, call, emit, readSoftAPIP]

/-- One `update()` call from a state whose responders are paired: it dereferences no
absent responder, and when it returns the responders are paired again and the stored
configuration is kept. -/
theorem update_frame (P : Platform σ) (C : Config) (fuel : Nat) (s : WiFiSetup σ)
    (hp : Paired s) :
    update P C fuel s ≠ Except.error Fault.nullDeref ∧
    ∀ t, update P C fuel s = Except.ok t → Paired t ∧ SameConfig s t := by
  have hst : ∀ u : WiFiSetup σ, SameMembers u (readStatus P u).2 :=
    fun u => ⟨rfl, rfl, rfl, rfl, rfl, rfl, rfl, rfl⟩
  unfold update
  simp only []
  split_ifs with c1 c2 c3 c4 c5
  · refine ⟨by simp, fun t ht => ?_⟩
    rw [← Except.ok.inj ht]
    exact ⟨hp, ⟨rfl, rfl, rfl, rfl⟩⟩
  · refine ⟨by simp, fun t ht => ?_⟩
    rw [← Except.ok.inj ht]
    have hm := sameMembers_connectWifi P
      (readStatus P { (readMillis P (readMillis P s).2).2 with
        lastUpdate := (readMillis P (readMillis P s).2).1 }).2.ssid
      (readStatus P { (readMillis P (readMillis P s).2).2 with
        lastUpdate := (readMillis P (readMillis P s).2).1 }).2.password
      (readStatus P { (readMillis P (readMillis P s).2).2 with
        lastUpdate := (readMillis P (readMillis P s).2).1 }).2
    exact ⟨hm.samePortal.paired hp, hm.sameConfig⟩
  · refine ⟨by simp, fun t ht => ?_⟩
    rw [← Except.ok.inj ht]
    have hm := sameMembers_connectWifi P
      (readStatus P { (readMillis P (readMillis P s).2).2 with
        lastUpdate := (readMillis P (readMillis P s).2).1 }).2.ssid
      (readStatus P { (readMillis P (readMillis P s).2).2 with
        lastUpdate := (readMillis P (readMillis P s).2).1 }).2.password
      (readStatus P { (readMillis P (readMillis P s).2).2 with
        lastUpdate := (readMillis P (readMillis P s).2).1 }).2
    obtain ⟨q1, q2⟩ := paired_startConfigPortal P _ (connectWifi P _ _ _).2
    exact ⟨q1, SameConfig.then_same hm.sameConfig q2⟩
  · obtain ⟨r1, r2⟩ := retryStep_frame P C (readMillis P s).2
    have hpr : Paired (retryStep P C (readMillis P s).2) := r2.paired hp
    have hdns : (retryStep P C (readMillis P s).2).dns.isSome = true := by
      rcases hpr with ⟨h1, _⟩ | ⟨_, h2⟩
      · rw [h1] at c5
        exact absurd c5 (by simp)
      · rw [h2]
        rfl
    obtain ⟨n1, n2⟩ := handleConfigPortal_frame P C fuel _ c5 hdns
    refine ⟨n1, fun t ht => ?_⟩
    obtain ⟨k1, _, k3⟩ := n2 t ht
    refine ⟨?_, SameConfig.then_same r1 k1⟩
    rcases k3 with ⟨a1, a2, _⟩ | k3
    · exact Or.inl ⟨a1, a2⟩
    · exact k3.paired hpr
  · refine ⟨by simp, fun t ht => ?_⟩
    rw [← Except.ok.inj ht]
    obtain ⟨r1, r2⟩ := retryStep_frame P C (readMillis P s).2
    exact ⟨r2.paired hp, r1⟩
  · refine ⟨by simp, fun t ht => ?_⟩
    rw [← Except.ok.inj ht]
    exact ⟨hp, ⟨rfl, rfl, rfl, rfl⟩⟩

/-- The loop of `start`, entered with paired responders that exist while the connected
flag is false: it dereferences no absent responder, and when it returns the responders are
paired and the stored configuration is kept. -/
theorem startLoop_frame (P : Platform σ) (C : Config) (b : Bool) (inner : Nat) :
    ∀ (fuel : Nat) (s : WiFiSetup σ), Paired s →
      (s.connected = false → s.server.isSome = true) →
      startLoop P C b inner fuel s ≠ Except.error Fault.nullDeref ∧
      ∀ t, startLoop P C b inner fuel s = Except.ok t → Paired t ∧ SameConfig s t := by
  intro fuel
  induction fuel with
  | zero =>
    intro s hp _
    simp only [startLoop]
    split_ifs
    · exact ⟨by simp, fun t ht => absurd ht (by simp)⟩
    · exact ⟨by simp, fun t ht => by rw [← Except.ok.inj ht]; exact ⟨hp, SameConfig.same s⟩⟩
  | succ fuel ih =>
    intro s hp hsrv
    simp only [startLoop]
    split_ifs with hc
    · have hcon : s.connected = false := by
        rw [Bool.and_eq_true] at hc
        simpa using hc.2
      obtain ⟨r1, r2⟩ := retryStep_frame P C s
      have hpr : Paired (retryStep P C s) := r2.paired hp
      have hs1 : (retryStep P C s).server.isSome = true := by
        rw [r2.2]
        exact hsrv hcon
      have hd1 : (retryStep P C s).dns.isSome = true := by
        rcases hpr with ⟨h1, _⟩ | ⟨_, h2⟩
        · rw [h1] at hs1
          exact absurd hs1 (by simp)
        · rw [h2]
          rfl
      obtain ⟨n1, n2⟩ := handleConfigPortal_frame P C inner _ hs1 hd1
      cases hh : handleConfigPortal P C inner (retryStep P C s) with
      | error f =>
        simp only []
        refine ⟨fun h => n1 ?_, fun t ht => absurd ht (by simp)⟩
        rw [hh, Except.error.inj h]
      | ok s1 =>
        simp only []
        obtain ⟨k1, _, k3⟩ := n2 s1 hh
        have hp1 : Paired (call P.yield Event.yield s1) := by
          rcases k3 with ⟨a1, a2, _⟩ | k3
          · exact Or.inl ⟨a1, a2⟩
          · exact k3.paired hpr
        have hv1 : (call P.yield Event.yield s1).connected = false →
            (call P.yield Event.yield s1).server.isSome = true := by
          intro hf
          rcases k3 with ⟨_, _, a3⟩ | k3
          · rw [show (call P.yield Event.yield s1).connected = s1.connected from rfl, a3] at hf
            exact absurd hf (by simp)
          · rw [show (call P.yield Event.yield s1).server = s1.server from rfl, k3.2]
            exact hs1
        obtain ⟨m1, m2⟩ := ih _ hp1 hv1
        refine ⟨m1, fun t ht => ?_⟩
        obtain ⟨w1, w2⟩ := m2 t ht
        exact ⟨w1, SameConfig.then_same (SameConfig.then_same r1 k1)
          (SameConfig.then_same ⟨rfl, rfl, rfl, rfl⟩ w2)⟩
    · exact ⟨by simp, fun t ht => by rw [← Except.ok.inj ht]; exact ⟨hp, SameConfig.same s⟩⟩

/-- One `start` call from a state whose responders are paired: it dereferences no absent
responder, and when it returns the responders are paired and the stored configuration is
kept. -/
theorem start_frame (P : Platform σ) (C : Config) (fuel : Nat) (b : Bool) (s : WiFiSetup σ)
    (hp : Paired s) :
    start P C fuel b s ≠ Except.error Fault.nullDeref ∧
    ∀ t, start P C fuel b s = Except.ok t → Paired t ∧ SameConfig s t := by
  unfold start
  simp only []
  generalize hs0 : call (P.mode WiFiMode.WIFI_STA) (Event.mode WiFiMode.WIFI_STA)
      (call (P.persistent false) (Event.persistent false)
        (call (P.hostname s.hostname) (Event.hostname s.hostname) s)) = s0
  have h0 : SameMembers s s0 := by
    rw [← hs0]
    exact ⟨rfl, rfl, rfl, rfl, rfl, rfl, rfl, rfl⟩
  have hloop : ∀ u : WiFiSetup σ, SameConfig s u →
      startLoop P C b fuel fuel (startConfigPortal P u.hostname u) ≠
        Except.error Fault.nullDeref ∧
      ∀ t, startLoop P C b fuel fuel (startConfigPortal P u.hostname u) = Except.ok t →
        Paired t ∧ SameConfig s t := by
    intro u hu
    obtain ⟨q1, q2⟩ := paired_startConfigPortal P u.hostname u
    obtain ⟨p1, _⟩ := startConfigPortal_spec P u.hostname u
    obtain ⟨m1, m2⟩ := startLoop_frame P C b fuel fuel _ q1 (fun _ => by rw [p1]; rfl)
    exact ⟨m1, fun t ht => ⟨(m2 t ht).1, SameConfig.then_same (SameConfig.then_same hu q2) (m2 t ht).2⟩⟩
  split_ifs with g1 g2
  · refine ⟨by simp, fun t ht => ?_⟩
    rw [← Except.ok.inj ht]
    have hm := sameMembers_connectWifi P s0.ssid s0.password s0
    exact ⟨(h0.trans hm).samePortal.paired hp, (h0.trans hm).sameConfig⟩
  · exact hloop _ (h0.trans (sameMembers_connectWifi P s0.ssid s0.password s0)).sameConfig
  · exact hloop _ h0.sameConfig

/-- Every reachable state has paired responders. -/
theorem reachable_paired (P : Platform σ) (C : Config) (s : WiFiSetup σ)
    (h : Reachable P C s) : Paired s := by
  induction h with
  | construct ssid password hostname callback e => exact Or.inl ⟨rfl, rfl⟩
  | setSsid ssid s _ ih => exact ih
  | setPassword password s _ ih => exact ih
  | setHostname hostname s _ ih => exact ih
  | setChangeCallback cb s _ ih => exact ih
  | start fuel b s t _ ht ih => exact ((start_frame P C fuel b s ih).2 t ht).1
  | update fuel s t _ ht ih => exact ((update_frame P C fuel s ih).2 t ht).1

/-- C20: in every state reachable from construction through setters and through `start` and
`update` calls, with any driver and any requests, the DNS responder is present exactly when
the HTTP server is, and neither `start` nor `update` called from it ever dereferences an
absent responder in `handleConfigPortal`, whatever the fuel. -/
theorem responders_paired_and_never_absent (P : Platform σ) (C : Config) (s : WiFiSetup σ)
    (h : Reachable P C s) :
    (s.dns.isSome = true ↔ s.server.isSome = true) ∧
    (∀ (fuel : Nat) (untilConnected : Bool),
      start P C fuel untilConnected s ≠ Except.error Fault.nullDeref) ∧
    (∀ fuel : Nat, update P C fuel s ≠ Except.error Fault.nullDeref) := by
  have hp := reachable_paired P C s h
  refine ⟨?_, fun fuel b => (start_frame P C fuel b s hp).1,
    fun fuel => (update_frame P C fuel s hp).1⟩
  rcases hp with ⟨h1, h2⟩ | ⟨h1, h2⟩
  · rw [h1, h2]
    exact Iff.rfl
  · rw [h1, h2]
    exact ⟨fun _ => rfl, fun _ => rfl⟩

/-- C20 on the state `start(false)` returns with on a driver that never connects: the portal
is up, and a following `update()` dereferences no absent responder. -/
theorem responders_paired_and_never_absent_witness :
    ∃ t, start (fixedPlatform 6 6) sampleConfig 0 false
        (new "home" "secret" "esp" idleCallback 5000) = Except.ok t ∧
      t.server.isSome = true ∧
      (t.dns.isSome = true ↔ t.server.isSome = true) ∧
      (∀ fuel : Nat, update (fixedPlatform 6 6) sampleConfig fuel t ≠
        Except.error Fault.nullDeref) :=
  ⟨_, rfl, rfl,
    (responders_paired_and_never_absent (fixedPlatform 6 6) sampleConfig _
      (Reachable.start 0 false _ _ (Reachable.construct "home" "secret" "esp" idleCallback 5000)
        rfl)).1,
    (responders_paired_and_never_absent (fixedPlatform 6 6) sampleConfig _
      (Reachable.start 0 false _ _ (Reachable.construct "home" "secret" "esp" idleCallback 5000)
        rfl)).2.2⟩

/-! ## The recheck of an established connection -/

/-- A recheck that does not end in a portal start makes no call of a portal start. -/
theorem recheck_trace (P : Platform σ) (s : WiFiSetup σ) :
    (∀ ev, ev ∈ since s (readStatus P (recheckState P s)).2 → startsPortal ev = false) ∧
    (∀ ev, ev ∈ since s (connectWifi P s.ssid s.password (readStatus P (recheckState P s)).2).2 →
      startsPortal ev = false) := by
  obtain ⟨evs, ht, hev, _⟩ := connectWifi_trace P s.ssid s.password
    (readStatus P (recheckState P s)).2
  have h1 : (readStatus P (recheckState P s)).2.trace =
      s.trace ++ [Event.status (P.status (recheckState P s).env).1] := rfl
  constructor
  · rw [since_of_trace h1]
    intro ev hev
    rw [List.mem_singleton] at hev
    rw [hev]
    rfl
  · rw [h1, List.append_assoc] at ht
    rw [since_of_trace ht]
    intro ev hmem
    rw [List.mem_append, List.mem_singleton] at hmem
    rcases hmem with h | h
    · rw [h]
      rfl
    · exact startsPortal_of_connectEvent ev (hev ev h)

/-- The recheck branch of `update`, written with the state the status is read in. -/
theorem update_recheck_eq (P : Platform σ) (C : Config) (fuel : Nat) (s : WiFiSetup σ)
    (hc : s.connected = true)
    (hge : C.REFETCH_INTERVAL ≤ elapsed (readMillis P s).1 s.lastUpdate) :
    update P C fuel s =
      if (readStatus P (recheckState P s)).1 = WL_CONNECTED then
        Except.ok (readStatus P (recheckState P s)).2
      else if (connectWifi P s.ssid s.password (readStatus P (recheckState P s)).2).1 =
          WL_CONNECTED then
        Except.ok (connectWifi P s.ssid s.password (readStatus P (recheckState P s)).2).2
      else
        Except.ok (startConfigPortal P s.hostname
          (connectWifi P s.ssid s.password (readStatus P (recheckState P s)).2).2) := by
  have hcm : (readMillis P s).2.connected = true := hc
  have f3 : (connectWifi P s.ssid s.password (readStatus P (recheckState P s)).2).2.hostname
      = s.hostname := (connectWifi_fields P s.ssid s.password _).2.2.1
  unfold update
  simp only []
  rw [if_pos ⟨hge, hcm⟩, ← f3]
  rfl

/-- An `update()` on a connected supervisor whose recheck is not yet due only reads the
clock. -/
theorem update_connected_idle (P : Platform σ) (C : Config) (fuel : Nat) (s : WiFiSetup σ)
    (hc : s.connected = true)
    (hlt : elapsed (readMillis P s).1 s.lastUpdate < C.REFETCH_INTERVAL) :
    update P C fuel s = Except.ok (readMillis P s).2 ∧
    SameMembers s (readMillis P s).2 ∧ since s (readMillis P s).2 = [] := by
  have hcm : (readMillis P s).2.connected = true := hc
  refine ⟨?_, ⟨rfl, rfl, rfl, rfl, rfl, rfl, rfl, rfl⟩,
    since_of_trace (List.append_nil _).symm⟩
  unfold update
  simp only []
  rw [if_neg (fun h => absurd h.1 (not_le.2 hlt)), if_neg (by rw [hcm]; simp)]

/-- C12: for a supervisor whose connected flag is true, an `update()` whose first clock
reading is less than `REFETCH_INTERVAL` after `lastUpdate` returns with every member
unchanged and no call traced; an `update()` whose first reading is at least
`REFETCH_INTERVAL` after `lastUpdate` sets `lastUpdate` to the next clock reading, and it
starts the portal, clearing the connected flag, exactly when the status read is not
Connected and the connect attempt with the stored credentials does not return Connected;
otherwise the connected flag and both responders are as before and no call of a portal start
is made. -/
theorem update_connected_recheck (P : Platform σ) (C : Config) (fuel : Nat)
    (s : WiFiSetup σ) (hc : s.connected = true) :
    (elapsed (readMillis P s).1 s.lastUpdate < C.REFETCH_INTERVAL →
      update P C fuel s = Except.ok (readMillis P s).2 ∧
      SameMembers s (readMillis P s).2 ∧ since s (readMillis P s).2 = []) ∧
    (C.REFETCH_INTERVAL ≤ elapsed (readMillis P s).1 s.lastUpdate →
      ∃ t, update P C fuel s = Except.ok t ∧
        t.lastUpdate = (readMillis P (readMillis P s).2).1 ∧
        ((readStatus P (recheckState P s)).1 ≠ WL_CONNECTED ∧
            (connectWifi P s.ssid s.password (readStatus P (recheckState P s)).2).1 ≠
              WL_CONNECTED →
          t = startConfigPortal P s.hostname
            (connectWifi P s.ssid s.password (readStatus P (recheckState P s)).2).2 ∧
          t.connected = false ∧ t.server = some portalServer ∧
          t.dns = some { started := true }) ∧
        (¬ ((readStatus P (recheckState P s)).1 ≠ WL_CONNECTED ∧
            (connectWifi P s.ssid s.password (readStatus P (recheckState P s)).2).1 ≠
              WL_CONNECTED) →
          t.connected = true ∧ t.server = s.server ∧ t.dns = s.dns ∧
          ∀ ev, ev ∈ since s t → startsPortal ev = false)) := by
  have hcm : (readMillis P s).2.connected = true := hc
  obtain ⟨f1, f2, f3, f4, f5, f6, f7, f8⟩ := connectWifi_fields P s.ssid s.password
    (readStatus P (recheckState P s)).2
  obtain ⟨tr1, tr2⟩ := recheck_trace P s
  constructor
  · exact update_connected_idle P C fuel s hc
  · intro hge
    rw [update_recheck_eq P C fuel s hc hge]
    by_cases hst : (readStatus P (recheckState P s)).1 = WL_CONNECTED
    · rw [if_pos hst]
      exact ⟨_, rfl, rfl, fun h => absurd hst h.1, fun _ => ⟨hc, rfl, rfl, tr1⟩⟩
    · rw [if_neg hst]
      by_cases hcw : (connectWifi P s.ssid s.password
          (readStatus P (recheckState P s)).2).1 = WL_CONNECTED
      · rw [if_pos hcw]
        exact ⟨_, rfl, f6, fun h => absurd hcw h.2, fun _ => ⟨f5.trans hc, f8, f7, tr2⟩⟩
      · rw [if_neg hcw]
        obtain ⟨p1, p2, p3, _, _, _, _, _, p9⟩ := startConfigPortal_spec P s.hostname
          (connectWifi P s.ssid s.password (readStatus P (recheckState P s)).2).2
        exact ⟨_, rfl, p9.trans f6, fun _ => ⟨rfl, p3, p1, p2⟩, fun h => absurd ⟨hst, hcw⟩ h⟩

/-- C12 on a connected supervisor with `lastUpdate` 0 and a recheck interval of 5000: at
clock 3000 the call only reads the clock; at clock 9000, with a driver that never connects,
it sets `lastUpdate` and starts the portal. -/
theorem update_connected_recheck_witness :
    ({ servingState with connected := true } : WiFiSetup Nat).connected = true ∧
    update (fixedPlatform 6 6) sampleConfig 0
      { servingState with connected := true, env := 3000 } =
        Except.ok { servingState with connected := true, env := 4000 } ∧
    ∃ t, update (fixedPlatform 6 6) sampleConfig 0
        { servingState with connected := true, env := 9000 } = Except.ok t ∧
      t.lastUpdate = 10000 ∧ t.connected = false :=
  ⟨rfl,
    ((update_connected_recheck (fixedPlatform 6 6) sampleConfig 0
      { servingState with connected := true, env := 3000 } rfl).1 (by decide)).1,
    _, rfl, rfl, rfl⟩

/-! ## Where the code departs from the state machine of the spec -/

/-- C13 fails as stated: on a freshly constructed supervisor with a driver that never
connects and the retry timer elapsed, `start(false)` returns with the portal started, while
one `update()` makes its connect attempt and returns with no HTTP server and no DNS
responder. -/
theorem update_fresh_leaves_no_portal :
    (new "home" "secret" "esp" idleCallback 5000 : WiFiSetup Nat).connected = false ∧
    (new "home" "secret" "esp" idleCallback 5000 : WiFiSetup Nat).server = none ∧
    NeverConnected (fixedPlatform 6 6) ∧
    (∃ u, start (fixedPlatform 6 6) sampleConfig 0 false
        (new "home" "secret" "esp" idleCallback 5000) = Except.ok u ∧
      u.server = some portalServer ∧ u.dns = some { started := true }) ∧
    ∃ t, update (fixedPlatform 6 6) sampleConfig 0
        (new "home" "secret" "esp" idleCallback 5000) = Except.ok t ∧
      since (new "home" "secret" "esp" idleCallback 5000) t =
        [Event.status 6, Event.begin "home" "secret", Event.waitForConnectResult 6] ∧
      t.server = none ∧ t.dns = none ∧ t.connected = false :=
  ⟨rfl, rfl, neverConnected_fixed, ⟨_, rfl, rfl, rfl⟩, _, rfl, by decide, rfl, rfl, rfl⟩

/-- C13, as amended: `update()` does not make the transition from Disconnected to the
portal.  On a supervisor whose connected flag is false and that has no portal, one
`update()` is the timer-driven retry and nothing else: it returns with no HTTP server, no
DNS responder and no call of a portal start, whatever the driver reports; `start(false)`,
with an empty ssid or a driver that never connects, returns with the portal started. -/
theorem update_fresh_never_starts_portal (P : Platform σ) (C : Config) (fuel : Nat)
    (s : WiFiSetup σ) (hc : s.connected = false) (hn : NoPortal s) :
    update P C fuel s = Except.ok (retryStep P C (readMillis P s).2) ∧
    NoPortal (retryStep P C (readMillis P s).2) ∧
    (s.ssid = "" ∨ NeverConnected P →
      ∃ u, start P C fuel false s = Except.ok u ∧ Serving u) := by
  have hm : NoPortal (readMillis P s).2 := hn
  have hcm : (readMillis P s).2.connected = false := hc
  have hr := noPortal_retryStep P C _ hm
  refine ⟨?_, hr, fun h => start_false_serving P C fuel s h⟩
  unfold update
  simp only []
  rw [if_neg (by rw [hcm]; simp), if_pos (by rw [hcm]; rfl), if_neg (by rw [hr.1]; simp)]

/-- C13 on a freshly constructed supervisor with a driver that never connects. -/
theorem update_fresh_never_starts_portal_witness :
    (new "home" "secret" "esp" idleCallback 5000 : WiFiSetup Nat).connected = false ∧
    NoPortal (new "home" "secret" "esp" idleCallback 5000 : WiFiSetup Nat) ∧
    NoPortal (retryStep (fixedPlatform 6 6) sampleConfig
      (readMillis (fixedPlatform 6 6) (new "home" "secret" "esp" idleCallback 5000)).2) :=
  ⟨rfl, ⟨rfl, rfl, fun ev h => absurd h (List.not_mem_nil ev)⟩,
    (update_fresh_never_starts_portal (fixedPlatform 6 6) sampleConfig 0
      (new "home" "secret" "esp" idleCallback 5000) rfl
      ⟨rfl, rfl, fun ev h => absurd h (List.not_mem_nil ev)⟩).2.1⟩

/-- When the status read says Connected, a connect attempt returns Connected after that
read alone, whatever network was asked for. -/
theorem connectWifi_already_connected (P : Platform σ) (a b : String) (s : WiFiSetup σ)
    (h : (P.status s.env).1 = WL_CONNECTED) :
    connectWifi P a b s = (WL_CONNECTED, (readStatus P s).2) := by
  have h2 : (readStatus P s).1 = WL_CONNECTED := h
  unfold connectWifi
  simp only []
  rw [if_pos h2]

/-- C14 at a failing input: on a driver whose status read says Connected, `connectWifi`
returns Connected for every requested network after the status read alone; `handleWifiSave`
then answers 200 and invokes the change callback for the submitted network "cafe" with no
association begun; and no assignment of one associated network to each driver state makes
the claim true, because "cafe" and "old" are both accepted in the same state. -/
theorem connectWifi_accepts_any_network_when_connected :
    (∀ (ssid password : String) (s : WiFiSetup Nat),
      connectWifi (fixedPlatform 3 3) ssid password s =
        (WL_CONNECTED, (readStatus (fixedPlatform 3 3) s).2)) ∧
    since servingState (handleWifiSave (fixedPlatform 3 3) cafeRequest servingState) =
      [Event.status 3, Event.send 200 "" "", Event.changeCallback "cafe" "latte"] ∧
    ¬ ∃ assoc : Nat → String, ∀ (ssid password : String) (s : WiFiSetup Nat), ssid ≠ "" →
        (connectWifi (fixedPlatform 3 3) ssid password s).1 = WL_CONNECTED →
        assoc s.env = ssid ∨
          Event.begin ssid password ∈ since s (connectWifi (fixedPlatform 3 3) ssid password s).2 := by
  have h1 : ∀ (ssid password : String) (s : WiFiSetup Nat),
      connectWifi (fixedPlatform 3 3) ssid password s =
        (WL_CONNECTED, (readStatus (fixedPlatform 3 3) s).2) :=
    fun ssid password s => connectWifi_already_connected _ ssid password s rfl
  refine ⟨h1, by decide, ?_⟩
  rintro ⟨assoc, h⟩
  have hs : ∀ (ssid password : String),
      Event.begin ssid password ∉ since servingState
        (connectWifi (fixedPlatform 3 3) ssid password servingState).2 := by
    intro ssid password
    rw [h1]
    have e : since servingState (readStatus (fixedPlatform 3 3) servingState).2 =
        [Event.status 3] := since_of_trace rfl
    rw [e]
    simp
  have ha := (h "cafe" "latte" servingState (by decide) (by rw [h1])).resolve_right (hs _ _)
  have hb := (h "old" "oldpw" servingState (by decide) (by rw [h1])).resolve_right (hs _ _)
  rw [ha] at hb
  exact absurd hb (by decide)

/-- C15 at a failing input: the retry inside `update()` returns Connected while the status
read of the same pass does not, which leaves the connected flag set and the portal up; the
next `update()` makes no call at all: no DNS request is processed, no client is handled and
the status is not read again, and the portal stays up. -/
theorem update_leaves_portal_unserved_when_connected :
    ∃ s1 s2 s3,
      start (fixedPlatform 6 3) sampleConfig 0 false (new "" "" "esp" idleCallback 5000)
        = Except.ok s1 ∧
      update (fixedPlatform 6 3) sampleConfig 0 s1 = Except.ok s2 ∧
      s2.connected = true ∧ s2.server = some portalServer ∧
      s2.dns = some { started := true } ∧
      update (fixedPlatform 6 3) sampleConfig 0 s2 = Except.ok s3 ∧
      since s2 s3 = [] ∧ s3.connected = true ∧ s3.server = some portalServer ∧
      s3.dns = some { started := true } :=
  ⟨_, _, _, rfl, rfl, rfl, rfl, rfl, rfl, by decide, rfl, rfl, rfl⟩

/-- C16 at a failing input: the clock stands at 5000 and the retry interval is 1000.  The
initial attempt of `start(true)` fails, and the first pass of the loop makes the next
attempt at the same clock reading, because `lastUpdate` is still 0; the same happens in the
first `update()` after `start(false)`. -/
theorem retry_follows_failed_initial_attempt_at_once :
    (∀ e, ((retryPlatform 5000).millis e).1 = 5000) ∧
    sampleConfig.RETRY_INVERTVAL = 1000 ∧
    (∃ s1, start (retryPlatform 5000) sampleConfig 1 true
        (new "home" "secret" "esp" idleCallback 0) = Except.ok s1 ∧
      (since (new "home" "secret" "esp" idleCallback 0) s1).filter
          (fun ev => isWait ev || isBegin ev) =
        [Event.begin "home" "secret", Event.waitForConnectResult 6,
         Event.begin "home" "secret", Event.waitForConnectResult 3] ∧
      s1.lastUpdate = 5000) ∧
    ∃ s1 s2, start (retryPlatform 5000) sampleConfig 0 false
        (new "home" "secret" "esp" idleCallback 0) = Except.ok s1 ∧
      update (retryPlatform 5000) sampleConfig 0 s1 = Except.ok s2 ∧
      (since (new "home" "secret" "esp" idleCallback 0) s2).filter
          (fun ev => isWait ev || isBegin ev) =
        [Event.begin "home" "secret", Event.waitForConnectResult 6,
         Event.begin "home" "secret", Event.waitForConnectResult 3] ∧
      s2.lastUpdate = 5000 :=
  ⟨fun _ => rfl, rfl, ⟨_, rfl, by decide, rfl⟩, _, _, rfl, rfl, by decide, rfl⟩

/-! ## Stored credentials -/

/-- An association that a connect attempt begins by name is begun with the credentials the
attempt was called with. -/
theorem connectWifi_begin_args (P : Platform σ) (a b : String) (s : WiFiSetup σ) (x y : String)
    (h : Event.begin x y ∈ since s (connectWifi P a b s).2) : x = a ∧ y = b := by
  unfold connectWifi at h
  simp only [readStatus, readStoredSSID, waitForConnectResult, call] at h
  split_ifs at h with h1 h2 h3
  · rw [@since_of_trace σ _ _ ([Event.status (P.status s.env).1]) rfl] at h
    simp at h
  · rw [@since_of_trace σ _ _ ([Event.status (P.status s.env).1, Event.begin a b,
      Event.waitForConnectResult (P.waitForConnectResult (P.begin a b (P.status s.env).2)).1])
      (by simp)] at h
    simpa using h
  · rw [@since_of_trace σ _ _ ([Event.status (P.status s.env).1,
      Event.storedSSID (P.storedSSID (P.status s.env).2).1,
      Event.stationDisconnect, Event.beginStored,
      Event.waitForConnectResult (P.waitForConnectResult (P.beginStored
        (P.stationDisconnect (P.storedSSID (P.status s.env).2).2))).1]) (by simp)] at h
    simp at h
  · rw [@since_of_trace σ _ _ ([Event.status (P.status s.env).1,
      Event.storedSSID (P.storedSSID (P.status s.env).2).1,
      Event.waitForConnectResult (P.waitForConnectResult (P.storedSSID (P.status s.env).2).2).1])
      (by simp)] at h
    simp at h

/-- An association the timer-driven retry begins by name is begun with the stored
credentials. -/
theorem retryStep_begin_args (P : Platform σ) (C : Config) (s : WiFiSetup σ) (x y : String)
    (h : Event.begin x y ∈ since s (retryStep P C s)) : x = s.ssid ∧ y = s.password := by
  unfold retryStep at h
  simp only [] at h
  split_ifs at h
  · exact connectWifi_begin_args P s.ssid s.password
      { (readMillis P (readMillis P s).2).2 with
        lastUpdate := (readMillis P (readMillis P s).2).1 } x y h
  · exact connectWifi_begin_args P s.ssid s.password
      { (readMillis P (readMillis P s).2).2 with
        lastUpdate := (readMillis P (readMillis P s).2).1 } x y h
  · have e : since s (readMillis P s).2 = [] := since_of_trace (List.append_nil _).symm
    rw [e] at h
    exact absurd h (List.not_mem_nil _)

/-- An association that `update` begins by name from a state whose connected flag is set
is begun with the stored credentials. -/
theorem update_connected_begin_args (P : Platform σ) (C : Config) (fuel : Nat)
    (s t : WiFiSetup σ) (hc : s.connected = true) (ht : update P C fuel s = Except.ok t)
    (x y : String) (h : Event.begin x y ∈ since s t) : x = s.ssid ∧ y = s.password := by
  by_cases hge : C.REFETCH_INTERVAL ≤ elapsed (readMillis P s).1 s.lastUpdate
  · rw [update_recheck_eq P C fuel s hc hge] at ht
    have hbase : ∀ u, Event.begin x y ∈ since s u →
        u = (connectWifi P s.ssid s.password (readStatus P (recheckState P s)).2).2 →
        x = s.ssid ∧ y = s.password := by
      intro u hu e
      subst e
      obtain ⟨evs, he, _⟩ := connectWifi_trace P s.ssid s.password
        (readStatus P (recheckState P s)).2
      have hcw := connectWifi_begin_args P s.ssid s.password
        (readStatus P (recheckState P s)).2 x y
      rw [since_of_trace he] at hcw
      have h1 : (readStatus P (recheckState P s)).2.trace =
          s.trace ++ [Event.status (P.status (recheckState P s).env).1] := rfl
      rw [h1, List.append_assoc] at he
      rw [since_of_trace he] at hu
      rw [List.mem_append, List.mem_singleton] at hu
      rcases hu with hu | hu
      · exact absurd hu (by simp)
      · exact hcw hu
    split_ifs at ht with hst hcw
    · rw [← Except.ok.inj ht] at h
      have h1 : (readStatus P (recheckState P s)).2.trace =
          s.trace ++ [Event.status (P.status (recheckState P s).env).1] := rfl
      rw [since_of_trace h1] at h
      simp at h
    · rw [← Except.ok.inj ht] at h
      exact hbase _ h rfl
    · rw [← Except.ok.inj ht] at h
      obtain ⟨_, _, _, p4, _⟩ := startConfigPortal_spec P s.hostname
        (connectWifi P s.ssid s.password (readStatus P (recheckState P s)).2).2
      obtain ⟨evs, he, _⟩ := connectWifi_trace P s.ssid s.password
        (readStatus P (recheckState P s)).2
      have h1 : (readStatus P (recheckState P s)).2.trace =
          s.trace ++ [Event.status (P.status (recheckState P s).env).1] := rfl
      have he2 : (connectWifi P s.ssid s.password (readStatus P (recheckState P s)).2).2.trace
          = s.trace ++ ([Event.status (P.status (recheckState P s).env).1] ++ evs) := by
        rw [he, h1, List.append_assoc]
      have p5 : (startConfigPortal P s.hostname
          (connectWifi P s.ssid s.password (readStatus P (recheckState P s)).2).2).trace =
          s.trace ++ (([Event.status (P.status (recheckState P s).env).1] ++ evs) ++
            portalEvents s.hostname (P.softAPIP (P.softAP s.hostname (P.mode WiFiMode.WIFI_AP_STA
              (connectWifi P s.ssid s.password
                (readStatus P (recheckState P s)).2).2.env))).1) := by
        rw [p4, he2, List.append_assoc]
      rw [since_of_trace p5, List.mem_append] at h
      rcases h with h | h
      · apply hbase _ _ rfl
        rw [since_of_trace he2]
        exact h
      · simp [portalEvents] at h
  · obtain ⟨h1, _, h3⟩ := update_connected_idle P C fuel s hc (not_le.1 hge)
    rw [h1] at ht
    rw [← Except.ok.inj ht, h3] at h
    exact absurd h (List.not_mem_nil _)

/-- C19: `handleWifiSave` leaves the stored ssid, password, hostname and `lastUpdate` as
they were, for every submission; an association begun by name by the timer-driven retry
after it, or by the `update()` after an accepted submission, is begun with the stored ssid
and password; `setSsid` and `setPassword` set them; and `start` and `update` keep them. -/
theorem handleWifiSave_keeps_stored_credentials (P : Platform σ) (C : Config)
    (req : Request) (s : WiFiSetup σ) :
    (handleWifiSave P req s).ssid = s.ssid ∧
    (handleWifiSave P req s).password = s.password ∧
    (handleWifiSave P req s).hostname = s.hostname ∧
    (handleWifiSave P req s).lastUpdate = s.lastUpdate ∧
    (∀ x y, Event.begin x y ∈
        since (handleWifiSave P req s) (retryStep P C (handleWifiSave P req s)) →
      x = s.ssid ∧ y = s.password) ∧
    (∀ fuel t, (handleWifiSave P req s).connected = true →
      update P C fuel (handleWifiSave P req s) = Except.ok t →
      ∀ x y, Event.begin x y ∈ since (handleWifiSave P req s) t →
        x = s.ssid ∧ y = s.password) ∧
    (∀ x, (setSsid x s).ssid = x ∧ (setPassword x s).password = x) ∧
    (Paired s → ∀ fuel b t, start P C fuel b s = Except.ok t →
      t.ssid = s.ssid ∧ t.password = s.password) ∧
    (Paired s → ∀ fuel t, update P C fuel s = Except.ok t →
      t.ssid = s.ssid ∧ t.password = s.password) := by
  obtain ⟨⟨c1, c2, c3, _⟩, _, c5⟩ := handleWifiSave_frame P req s
  refine ⟨c1, c2, c3, c5, fun x y h => ?_, fun fuel t hc ht x y h => ?_, fun x => ⟨rfl, rfl⟩,
    fun hp fuel b t ht => ?_, fun hp fuel t ht => ?_⟩
  · rw [← c1, ← c2]
    exact retryStep_begin_args P C _ x y h
  · rw [← c1, ← c2]
    exact update_connected_begin_args P C fuel _ t hc ht x y h
  · obtain ⟨_, k1, k2, _⟩ := (start_frame P C fuel b s hp).2 t ht
    exact ⟨k1, k2⟩
  · obtain ⟨_, k1, k2, _⟩ := (update_frame P C fuel s hp).2 t ht
    exact ⟨k1, k2⟩

/-- After the submission of "cafe" is accepted, the stored network is still "old", and the
recheck of the next `update()` begins its association with "old". -/
theorem handleWifiSave_accepted_retry_uses_old_credentials :
    (handleWifiSave (fixedPlatform 6 3) cafeRequest servingState).ssid = "old" ∧
    (handleWifiSave (fixedPlatform 6 3) cafeRequest servingState).password = "oldpw" ∧
    (handleWifiSave (fixedPlatform 6 3) cafeRequest servingState).connected = true ∧
    ∃ t, update (fixedPlatform 6 3) sampleConfig 0
        { handleWifiSave (fixedPlatform 6 3) cafeRequest servingState with env := 9000 }
        = Except.ok t ∧
      (since (handleWifiSave (fixedPlatform 6 3) cafeRequest servingState) t).filter isBegin =
        [Event.begin "old" "oldpw"] :=
  ⟨rfl, rfl, rfl, _, rfl, by decide⟩

/-! ## Retry throttling -/

/-- One pump of the portal reads neither interval. -/
theorem handleConfigPortal_disarmed (P : Platform σ) (C : Config) (fuel : Nat)
    (s : WiFiSetup σ) :
    handleConfigPortal P (disarmed C) fuel s = handleConfigPortal P C fuel s := by
  rfl

/-- Appending the markup of each element in turn appends the markups one after the other. -/
theorem foldl_append_joinAll {α : Type} (f : α → String) :
    ∀ (l : List α) (pg : String),
      l.foldl (fun pg it => pg ++ f it) pg = pg ++ joinAll (l.map f) := by
  intro l
  induction l with
  | nil =>
    intro pg
    simp [joinAll]
  | cons x xs ih =>
    intro pg
    simp only [List.foldl_cons, List.map_cons, joinAll]
    rw [ih, String.append_assoc]

/-- On a completed scan with at least one row `handleRoot` returns, having made three
calls: the scan, the length header, and the page whose list holds the markup of the
networks kept by the sorting and marking loops, in their order. -/
theorem handleRoot_list_page (P : Platform σ) (C : Config) (s : WiFiSetup σ) (sc : Scan)
    (hscan : (P.scanNetworks s.env).1 = ScanResult.complete sc) (hne : sc.nets ≠ []) :
    handleRoot P C s = Except.ok (emit (emit
      { s with env := (P.scanNetworks s.env).2,
               trace := s.trace ++ [Event.scanNetworks (sc.nets.length : Int)] }
      (Event.sendHeader "Content-Length"
        (toString (listPage C (renderedNetworks P.sort sc)).utf8ByteSize)))
      (Event.send 200 "text/html" (listPage C (renderedNetworks P.sort sc)))) := by
  have hc : (P.scanNetworks s.env).1.count = (sc.nets.length : Int) := by
    rw [hscan]
    rfl
  have ht : (P.scanNetworks s.env).1.table = sc := by
    rw [hscan]
    rfl
  have hpos : 0 < sc.nets.length := List.length_pos.2 hne
  unfold handleRoot
  simp only []
  rw [hc, ht, if_neg (by omega), if_neg (by omega)]
  simp only []
  rw [foldl_append_joinAll]
  rfl

/-- C8: for every completed scan with at least one row, `handleRoot` returns after the
scan, the length header and one page, and the list of that page holds the markup of the
rendered networks in this order: strengths do not increase along it, every rendered network
is a row of the table and has the highest strength among the rows with its name; and on the
table `[("A",-40),("A",-60),("B",-70)]` the rendered networks are `[("A",-40),("B",-70)]`.
This holds for every `std::sort` that meets its contract. -/
theorem handleRoot_networks_sorted_strongest (P : Platform σ) (C : Config)
    (s : WiFiSetup σ) (sc : Scan) (hs : SortContract P.sort)
    (hscan : (P.scanNetworks s.env).1 = ScanResult.complete sc) (hne : sc.nets ≠ []) :
    (∃ t, handleRoot P C s = Except.ok t ∧
      since s t = [Event.scanNetworks (sc.nets.length : Int),
        Event.sendHeader "Content-Length"
          (toString (listPage C (renderedNetworks P.sort sc)).utf8ByteSize),
        Event.send 200 "text/html" (listPage C (renderedNetworks P.sort sc))]) ∧
    ((renderedNetworks P.sort sc).map Item.rssi).Pairwise (fun a b => a ≥ b) ∧
    (∀ it, it ∈ renderedNetworks P.sort sc →
      (∃ nw, nw ∈ sc.nets ∧ nw.ssid = it.ssid ∧ nw.rssi = it.rssi) ∧
      ∀ nw, nw ∈ sc.nets → nw.ssid = it.ssid → nw.rssi ≤ it.rssi) ∧
    (∀ e1 e2 e3 : Nat, sc = sampleScan e1 e2 e3 →
      (renderedNetworks P.sort sc).map (fun it => (it.ssid, it.rssi))
        = [("A", -40), ("B", -70)]) := by
  obtain ⟨g1, g2⟩ := renderedNetworks_sorted_strongest P.sort hs
  refine ⟨⟨_, handleRoot_list_page P C s sc hscan hne, since_of_trace (by simp [emit])⟩,
    (g1 sc hne).1, (g1 sc hne).2, fun e1 e2 e3 h => ?_⟩
  rw [h]
  exact g2 e1 e2 e3

/-- C8 with insertion sort as `std::sort`, on the sample table with encryption types
7, 4, 7 and an item template that shows name, quality and lock: the page sent lists "A" at
100 % and then "B" at 60 %. -/
theorem handleRoot_networks_sorted_strongest_witness :
    SortContract (scanPlatform (sampleScan 7 4 7)).sort ∧
    (∃ t, handleRoot (scanPlatform (sampleScan 7 4 7)) listConfig
        (new "" "" "esp" idleCallback 0) = Except.ok t ∧
      since (new "" "" "esp" idleCallback 0) t =
        [Event.scanNetworks 3, Event.sendHeader "Content-Length" "60",
         Event.send 200 "text/html"
           "<ul><li>A 100 % &#128275;</li><li>B 60 % &#128275;</li></ul>"]) ∧
    (renderedNetworks (scanPlatform (sampleScan 7 4 7)).sort (sampleScan 7 4 7)).map
        (fun it => (it.ssid, it.rssi)) = [("A", -40), ("B", -70)] :=
  ⟨insertionSortBy_contract,
    ⟨_, by with_unfolding_all rfl, by with_unfolding_all decide⟩,
    (handleRoot_networks_sorted_strongest (scanPlatform (sampleScan 7 4 7)) listConfig
      (new "" "" "esp" idleCallback 0) (sampleScan 7 4 7) insertionSortBy_contract rfl
      (List.cons_ne_nil _ _)).2.2.2 7 4 7 rfl⟩

end WiFiSetup
